import Mathlib

/-!
# minisphere: map engine (map_engine.c)

A shallow embedding of `map_engine.c`.  The static session variables
(`s_running`, `s_exiting`, ...) become fields of `State`; every C function
becomes a state-passing function `M α := State → Res α` whose failures keep the
state reached when the failure happened.  Calls that leave the file (Allegro,
the person subsystem, the frame clock) are recorded in `State.trace`, and the
answers of those collaborators are fields of `Env` that may depend on that
history.  Scripts are sequences of calls of the thirteen API functions the
file registers; nested invocations are bounded by a fuel argument.  Undefined
behaviour of the C code (a NULL dereference, a read outside an array, a free
through an unassigned pointer) is the fault `Fault.crash`.
-/

namespace Minisphere

/-! ## Data model -/

/-- Embeds `person_t*`: an opaque handle of the person subsystem. -/
abbrev person_t := Nat

/-- Embeds `lstring_t`: a counted byte string. -/
abbrev lstring_t := List Nat

/-- Embeds `enum person_cmd` of persons.h, in declaration order. -/
inductive person_cmd where
  | COMMAND_WAIT
  | COMMAND_ANIMATE
  | COMMAND_FACE_NORTH
  | COMMAND_FACE_NORTHEAST
  | COMMAND_FACE_EAST
  | COMMAND_FACE_SOUTHEAST
  | COMMAND_FACE_SOUTH
  | COMMAND_FACE_SOUTHWEST
  | COMMAND_FACE_WEST
  | COMMAND_FACE_NORTHWEST
  | COMMAND_MOVE_NORTH
  | COMMAND_MOVE_NORTHEAST
  | COMMAND_MOVE_EAST
  | COMMAND_MOVE_SOUTHEAST
  | COMMAND_MOVE_SOUTH
  | COMMAND_MOVE_SOUTHWEST
  | COMMAND_MOVE_WEST
  | COMMAND_MOVE_NORTHWEST
deriving DecidableEq

/-- The four Allegro key codes `update_map_engine` asks about. -/
inductive Key where
  | ALLEGRO_KEY_UP
  | ALLEGRO_KEY_RIGHT
  | ALLEGRO_KEY_DOWN
  | ALLEGRO_KEY_LEFT
deriving DecidableEq

/-- Embeds `struct map`: `scripts` is the array of `lstring_t*` (an entry may be NULL). -/
structure map_t where
  width : Int
  height : Int
  scripts : List (Option lstring_t)
deriving DecidableEq

/-- One call of an API function registered by `init_map_engine_api`, with its
arguments already coerced (`duk_to_string`, `duk_to_int`, `duk_require_lstring`). -/
inductive Cmd where
  | MapEngine (filename : String) (framerate : Int)
  | GetCurrentMap
  | GetMapEngineFrameRate
  | SetMapEngineFrameRate (framerate : Int)
  | SetDefaultMapScript (script_type : Int) (script : lstring_t)
  | SetRenderScript (script : lstring_t)
  | SetUpdateScript (script : lstring_t)
  | IsMapEngineRunning
  | AttachCamera (name : String)
  | AttachInput (name : String)
  | ExitMapEngine
  | RenderMap
  | UpdateMapEngine
deriving DecidableEq

/-- Values on the script engine's value stack. A compiled script is the
sequence of API calls it makes. -/
inductive Val where
  | undefined
  | null
  | boolean (b : Bool)
  | int (i : Int)
  | string (s : String)
  | global_stash
  | function (body : List Cmd)
deriving DecidableEq

/-- Error codes passed to `duk_error`. -/
inductive ErrCode where
  | DUK_ERR_ERROR
  | DUK_ERR_RANGE_ERROR
  | DUK_ERR_REFERENCE_ERROR
  | DUK_ERR_SYNTAX_ERROR
  | DUK_ERR_TYPE_ERROR
  | DUK_ERR_API_ERROR
deriving DecidableEq

/-- Ways a call can fail to return: a script error raised with `duk_error`,
undefined behaviour of the C code (NULL dereference, read outside an array),
or exhausted fuel of the model. -/
inductive Fault where
  | error (code : ErrCode) (msg : String)
  | crash (what : String)
  | timeout
deriving DecidableEq

/-- Calls that cross the boundary of map_engine.c, in the order they happen, and the errors
a script catches. -/
inductive Ev where
  | al_clear_to_color
  | begin_frame (framerate : Int)
  | update_persons
  | al_get_keyboard_state
  | command_person (person : person_t) (command : person_cmd)
  | get_person_xy (person : person_t) (width height : Int)
  | al_draw_text (text : String)
  | render_persons
  | duk_call (body : List Cmd)
  | api (c : Cmd)
  | api_return (c : Cmd) (v : Val)
  | caught (c : Cmd)
deriving DecidableEq

/-- The static variables of map_engine.c, the global stash of the script
engine, the value stack of the running native activation (above its
arguments), and the history of outside calls. -/
structure State where
  s_camera_person : Option person_t
  s_cam_x : Int
  s_cam_y : Int
  s_exiting : Bool
  s_framerate : Int
  s_input_person : Option person_t
  s_map : Option map_t
  s_map_filename : Option String
  s_running : Bool
  stash : String → Val
  vstack : List Val
  trace : List Ev

/-- The static initialisers of map_engine.c with an empty stash. -/
def State.init : State where
  s_camera_person := none
  s_cam_x := 0
  s_cam_y := 0
  s_exiting := false
  s_framerate := 0
  s_input_person := none
  s_map := none
  s_map_filename := none
  s_running := false
  stash := fun _ => Val.undefined
  vstack := []
  trace := []

/-- The collaborators of map_engine.c that are not part of the file. The
answers of the live ones depend on the history of calls so far.
`uninitialized_is_null` is the indeterminate value of a pointer local that is
read before it was assigned: whether it happens to compare equal to NULL. -/
structure Env where
  get_asset_path : String → String
  al_fopen : String → Option (List Nat)
  al_fread_lstring : List Nat → Option lstring_t × List Nat
  uninitialized_is_null : Bool
  duk_compile : lstring_t → Option (List Cmd)
  find_person : List Ev → String → Option person_t
  begin_frame : List Ev → Int → Bool
  al_get_keyboard_state : List Ev → Key → Bool
  get_person_xy : List Ev → person_t → Int → Int → Int × Int

/-! ## The state-and-failure monad -/

/-- Outcome of a call: a value and the new state, or a fault and the state in
which it happened. -/
inductive Res (α : Type) where
  | ok (a : α) (s : State)
  | fail (f : Fault) (s : State)

/-- The state an outcome ends in. -/
def Res.state {α : Type} : Res α → State
  | .ok _ s => s
  | .fail _ s => s

/-- True for outcomes that returned. -/
def Res.isOk {α : Type} : Res α → Bool
  | .ok _ _ => true
  | .fail _ _ => false

/-- The fault of an outcome, if it did not return. -/
def Res.fault {α : Type} : Res α → Option Fault
  | .ok _ _ => none
  | .fail f _ => some f

/-- A computation over the session state. -/
def M (α : Type) : Type := State → Res α

/-- Return a value, state untouched. -/
def M.pure {α : Type} (a : α) : M α := fun s => Res.ok a s

/-- Sequencing: a failure of the first part ends the computation. -/
def M.bind {α β : Type} (m : M α) (f : α → M β) : M β := fun s =>
  match m s with
  | .ok a s1 => f a s1
  | .fail e s1 => .fail e s1

instance : Monad M where
  pure := M.pure
  bind := M.bind

/-- Read the state. -/
def getS : M State := fun s => Res.ok s s

/-- Change the state. -/
def modifyS (f : State → State) : M Unit := fun s => Res.ok () (f s)

/-- Stop with a fault. -/
def raise {α : Type} (e : Fault) : M α := fun s => Res.fail e s

/-- Record an outside call. -/
def logEv (e : Ev) : M Unit := modifyS fun s => { s with trace := s.trace ++ [e] }

/-- Embeds `duk_error(ctx, code, msg)`: throws, never returns. -/
def duk_error {α : Type} (code : ErrCode) (msg : String) : M α := raise (Fault.error code msg)

/-! ## Value stack primitives of the script engine -/

/-- Push a value. -/
def duk_push (v : Val) : M Unit := modifyS fun s => { s with vstack := v :: s.vstack }

/-- Embeds `duk_pop`: drop the top value; an empty stack is an API error. -/
def duk_pop : M Unit := fun s =>
  match s.vstack with
  | [] => Res.fail (Fault.error ErrCode.DUK_ERR_API_ERROR "attempt to pop too many entries") s
  | _ :: rest => Res.ok () { s with vstack := rest }

/-- Embeds `duk_pop_2`: drop the two top values. -/
def duk_pop_2 : M Unit := do
  duk_pop
  duk_pop

/-- Embeds `duk_push_global_stash`. -/
def duk_push_global_stash : M Unit := duk_push Val.global_stash

/-- Embeds `duk_get_prop_string(ctx, -1, key)`: push the property `key` of the object
on top of the stack (here always the global stash). -/
def duk_get_prop_string (key : String) : M Unit := fun s =>
  match s.vstack with
  | Val.global_stash :: _ => Res.ok () { s with vstack := s.stash key :: s.vstack }
  | _ => Res.fail (Fault.error ErrCode.DUK_ERR_TYPE_ERROR "invalid base value") s

/-- Embeds `duk_is_callable(ctx, -1)`. -/
def duk_is_callable : M Bool := fun s =>
  match s.vstack with
  | Val.function _ :: _ => Res.ok true s
  | _ => Res.ok false s

/-- Embeds `duk_call(ctx, 0)`: replace the function on top of the stack by the value
its invocation returns. `call` is the invocation of a compiled script. -/
def duk_call (call : List Cmd → M Unit) : M Unit := fun s =>
  match s.vstack with
  | Val.function body :: rest =>
    (do logEv (Ev.duk_call body)
        call body
        duk_push Val.undefined) { s with vstack := rest }
  | _ => Res.fail (Fault.error ErrCode.DUK_ERR_TYPE_ERROR "not callable") s

/-- Embeds `duk_compile_lstring(ctx, flags, src, len)`: push the compiled function, or
throw a SyntaxError. -/
def duk_compile_lstring (env : Env) (src : lstring_t) : M Unit :=
  match env.duk_compile src with
  | some body => duk_push (Val.function body)
  | none => duk_error ErrCode.DUK_ERR_SYNTAX_ERROR "parse error"

/-- Embeds `duk_compile_lstring_filename(ctx, flags, src, len)`: as `duk_compile_lstring`,
with the file name taken from the top of the stack. -/
def duk_compile_lstring_filename (env : Env) (src : lstring_t) : M Unit := do
  duk_pop
  duk_compile_lstring env src

/-- Embeds `duk_put_prop_string(ctx, -2, key)`: pop the value on top and store it as
property `key` of the object below it (here always the global stash). -/
def duk_put_prop_string (key : String) : M Unit := fun s =>
  match s.vstack with
  | v :: Val.global_stash :: rest =>
    Res.ok () { s with stash := fun k => if k = key then v else s.stash k,
                       vstack := Val.global_stash :: rest }
  | _ => Res.fail (Fault.error ErrCode.DUK_ERR_TYPE_ERROR "invalid base value") s

/-! ## load_map -/

/-- A little-endian `int16_t` at byte offset `off`. -/
def read_int16 (bytes : List Nat) (off : Nat) : Int :=
  let u : Nat := bytes.getD off 0 % 256 + 256 * (bytes.getD (off + 1) 0 % 256)
  if u < 32768 then (u : Int) else (u : Int) - 65536

/-- Embeds `sizeof(struct rmp_header)` under `#pragma pack(push, 1)`. -/
def rmp_header_size : Nat := 4 + 2 + 1 + 1 + 1 + 2 + 2 + 2 + 1 + 1 + 2 + 2 + 1 + 234

/-- The bytes of `".rmp"`. -/
def rmp_signature : List Nat := [46, 114, 109, 112]

/-- Field `version` of the header (offset 4). -/
def rmp_version (rmp : List Nat) : Int := read_int16 rmp 4

/-- Field `num_strings` of the header (offset 17). -/
def rmp_num_strings (rmp : List Nat) : Int := read_int16 rmp 17

/-- The loop `for (i = 0; i < rmp.num_strings; ++i) failed = ((scripts[i] =
al_fread_lstring(file)) == NULL) || failed;`: every read is attempted, the
stream moves on after each, and the result is `failed` with the array. -/
def load_map.read_scripts (rd : List Nat → Option lstring_t × List Nat) :
    Nat → List Nat → Bool × List (Option lstring_t)
  | 0, _ => (false, [])
  | n + 1, file =>
    let r := rd file
    let rest := load_map.read_scripts rd n r.2
    (r.1.isNone || rest.1, r.1 :: rest.2)

/-- The block under `on_error:` of `load_map`: it tests `scripts` and, when it
is not NULL, frees its entries and the array, then returns NULL. `scripts` is
declared without an initialiser and first assigned by the `calloc` of the
version-1 case, so on a jump from before that assignment the test reads an
indeterminate value; when that value is not NULL the function frees through a
pointer that was never allocated. `free_lstring`, declared elsewhere, is taken
to accept the NULL entries left by failed reads. -/
def load_map.on_error (env : Env) (scripts_assigned : Bool) : Except Fault (Option map_t) :=
  if scripts_assigned || env.uninitialized_is_null then .ok none
  else .error (Fault.crash "on_error: scripts is uninitialised and not NULL")

/-- Embeds `load_map(path)`: `.ok none` is the NULL returned through `on_error`.
The heap is not modelled: allocations of a non-negative count succeed, and the
`calloc` of a negative `num_strings` (a huge `size_t`) returns NULL. -/
def load_map (env : Env) (path : String) : Except Fault (Option map_t) :=
  match env.al_fopen path with
  | none => load_map.on_error env false
  | some file =>
    let rmp := file.take rmp_header_size
    if rmp.length ≠ rmp_header_size then load_map.on_error env false
    else if rmp.take 4 ≠ rmp_signature then load_map.on_error env false
    else if rmp_version rmp = 1 then
      if rmp_num_strings rmp < 0 then load_map.on_error env true
      else
        let r := load_map.read_scripts env.al_fread_lstring (rmp_num_strings rmp).toNat
          (file.drop rmp_header_size)
        if r.1 then load_map.on_error env true
        else .ok (some { width := 0, height := 0, scripts := r.2 })
    else load_map.on_error env false

/-! ## change_map, render_map_engine, update_map_engine -/

/-- Embeds `change_map(filename)`. -/
def change_map (env : Env) (call : List Cmd → M Unit) (filename : String) : M Bool := do
  let path := env.get_asset_path filename
  let map ←
    match load_map env path with
    | .ok map => pure map
    | .error fault => raise fault
  modifyS fun s => { s with s_map_filename := none }
  match map with
  | some m =>
    modifyS fun s => { s with s_map := some m }
    modifyS fun s => { s with s_map_filename := some filename }
    -- run default map entry script
    duk_push_global_stash
    duk_get_prop_string "map_def_enter_script"
    if (← duk_is_callable) then
      duk_call call
      duk_pop
    duk_pop
    -- run map entry script
    match (← getS).s_map with
    | none => raise (Fault.crash "s_map is NULL")
    | some cur =>
      match cur.scripts.get? 3 with
      | none => raise (Fault.crash "s_map->scripts[3] is outside the array")
      | some none => raise (Fault.crash "s_map->scripts[3] is NULL")
      | some (some src) =>
        duk_compile_lstring env src
        duk_call call
        duk_pop
        return true
  | none => return false

/-- Embeds `render_map_engine()`. `al_draw_text` reads the text it is given, so a NULL
`s_map_filename` is a NULL dereference. -/
def render_map_engine (call : List Cmd → M Unit) : M Unit := do
  match (← getS).s_map_filename with
  | none => raise (Fault.crash "al_draw_text: s_map_filename is NULL")
  | some text => logEv (Ev.al_draw_text text)
  logEv Ev.render_persons
  duk_push_global_stash
  duk_get_prop_string "render_script"
  if (← duk_is_callable) then duk_call call
  duk_pop_2

/-- Lines 193-212 of `update_map_engine`: check for player input. -/
def update_map_engine.check_input (env : Env) : M Unit := do
  match (← getS).s_input_person with
  | none => return ()
  | some p =>
    let kb_state := env.al_get_keyboard_state (← getS).trace
    logEv Ev.al_get_keyboard_state
    if kb_state Key.ALLEGRO_KEY_UP then
      logEv (Ev.command_person p person_cmd.COMMAND_FACE_NORTH)
      logEv (Ev.command_person p person_cmd.COMMAND_MOVE_NORTH)
    else if kb_state Key.ALLEGRO_KEY_RIGHT then
      logEv (Ev.command_person p person_cmd.COMMAND_FACE_EAST)
      logEv (Ev.command_person p person_cmd.COMMAND_MOVE_EAST)
    else if kb_state Key.ALLEGRO_KEY_DOWN then
      logEv (Ev.command_person p person_cmd.COMMAND_FACE_SOUTH)
      logEv (Ev.command_person p person_cmd.COMMAND_MOVE_SOUTH)
    else if kb_state Key.ALLEGRO_KEY_LEFT then
      logEv (Ev.command_person p person_cmd.COMMAND_FACE_WEST)
      logEv (Ev.command_person p person_cmd.COMMAND_MOVE_WEST)

/-- Lines 214-219 of `update_map_engine`: update camera. `s_map->width` with
no map is a NULL dereference. -/
def update_map_engine.update_camera (env : Env) : M Unit := do
  match (← getS).s_camera_person with
  | none => return ()
  | some p =>
    match (← getS).s_map with
    | none => raise (Fault.crash "s_map is NULL")
    | some m =>
      let xy := env.get_person_xy (← getS).trace p m.width m.height
      logEv (Ev.get_person_xy p m.width m.height)
      modifyS fun s => { s with s_cam_x := xy.1 }
      modifyS fun s => { s with s_cam_y := xy.2 }

/-- Lines 221-225 of `update_map_engine`: run update script. -/
def update_map_engine.run_script (call : List Cmd → M Unit) : M Unit := do
  duk_push_global_stash
  duk_get_prop_string "update_script"
  if (← duk_is_callable) then duk_call call
  duk_pop_2

/-- Embeds `update_map_engine()`. -/
def update_map_engine (env : Env) (call : List Cmd → M Unit) : M Unit := do
  logEv Ev.update_persons
  update_map_engine.check_input env
  update_map_engine.update_camera env
  update_map_engine.run_script call

/-! ## The API functions -/

/-- Lines 240-242 of `js_MapEngine`: the body of the `while` loop. -/
def js_MapEngine.frame (env : Env) (call : List Cmd → M Unit) : M Unit := do
  let s ← getS
  logEv (Ev.begin_frame s.s_framerate)
  if !(env.begin_frame s.trace s.s_framerate) then
    duk_error ErrCode.DUK_ERR_ERROR "!exit"
  update_map_engine env call
  render_map_engine call

/-- The loop `while (!s_exiting) ...` of `js_MapEngine`, at most `fuel` tests of
its condition. -/
def js_MapEngine.loop (env : Env) (call : List Cmd → M Unit) : Nat → M Unit
  | 0 => raise Fault.timeout
  | fuel + 1 => do
    if (← getS).s_exiting then
      return ()
    else
      js_MapEngine.frame env call
      js_MapEngine.loop env call fuel

/-- Embeds `js_MapEngine`. -/
def js_MapEngine (env : Env) (call : List Cmd → M Unit) (fuel : Nat)
    (filename : String) (framerate : Int) : M Int := do
  modifyS fun s => { s with s_running := true }
  modifyS fun s => { s with s_exiting := false }
  logEv Ev.al_clear_to_color
  modifyS fun s => { s with s_framerate := framerate }
  let _ ← change_map env call filename
  js_MapEngine.loop env call fuel
  modifyS fun s => { s with s_running := false }
  return 0

/-- Embeds `js_GetCurrentMap`. `duk_push_string` pushes null for a NULL pointer. -/
def js_GetCurrentMap : M Int := do
  if (← getS).s_running then
    match (← getS).s_map_filename with
    | some name => duk_push (Val.string name)
    | none => duk_push Val.null
    return 1
  else
    duk_error ErrCode.DUK_ERR_ERROR "GetCurrentMap(): Operation requires map engine to be running"

/-- Embeds `js_GetMapEngineFrameRate`. -/
def js_GetMapEngineFrameRate : M Int := do
  duk_push (Val.int (← getS).s_framerate)
  return 1

/-- Embeds `js_SetMapEngineFrameRate`. -/
def js_SetMapEngineFrameRate (framerate : Int) : M Int := do
  modifyS fun s => { s with s_framerate := framerate }
  return 0

/-- The conditional chain of `js_SetDefaultMapScript` choosing `script_name`
(`enum mapscript` counts from 0). -/
def js_SetDefaultMapScript.script_name (script_type : Int) : Option String :=
  if script_type = 0 then some "map_def_enter_script"
  else if script_type = 1 then some "map_def_leave_script"
  else if script_type = 2 then some "map_def_leave_north_script"
  else if script_type = 3 then some "map_def_leave_east_script"
  else if script_type = 4 then some "map_def_leave_south_script"
  else if script_type = 5 then some "map_def_leave_west_script"
  else none

/-- Embeds `js_SetDefaultMapScript`. -/
def js_SetDefaultMapScript (env : Env) (script_type : Int) (script : lstring_t) : M Int := do
  match js_SetDefaultMapScript.script_name script_type with
  | some script_name =>
    duk_push_global_stash
    duk_push (Val.string "[def-mapscript]")
    duk_compile_lstring_filename env script
    duk_put_prop_string script_name
    duk_pop
    return 0
  | none =>
    duk_error ErrCode.DUK_ERR_ERROR "SetDefaultMapScript(): Invalid map script constant"

/-- Embeds `js_SetRenderScript`. -/
def js_SetRenderScript (env : Env) (script : lstring_t) : M Int := do
  duk_push_global_stash
  duk_push (Val.string "[renderscript]")
  duk_compile_lstring_filename env script
  duk_put_prop_string "render_script"
  duk_pop
  return 0

/-- Embeds `js_SetUpdateScript`. -/
def js_SetUpdateScript (env : Env) (script : lstring_t) : M Int := do
  duk_push_global_stash
  duk_push (Val.string "[updatescript]")
  duk_compile_lstring_filename env script
  duk_put_prop_string "update_script"
  duk_pop
  return 0

/-- Embeds `js_IsMapEngineRunning`. -/
def js_IsMapEngineRunning : M Int := do
  duk_push (Val.boolean (← getS).s_running)
  return 1

/-- Embeds `js_AttachCamera`. -/
def js_AttachCamera (env : Env) (name : String) : M Int := do
  match env.find_person (← getS).trace name with
  | some person => modifyS fun s => { s with s_camera_person := some person }
  | none =>
    duk_error ErrCode.DUK_ERR_REFERENCE_ERROR
      ("AttachCamera(): Person \x27" ++ name ++ "\x27 doesn\x27t exist")
  return 0

/-- Embeds `js_AttachInput`. -/
def js_AttachInput (env : Env) (name : String) : M Int := do
  match env.find_person (← getS).trace name with
  | some person => modifyS fun s => { s with s_input_person := some person }
  | none =>
    duk_error ErrCode.DUK_ERR_REFERENCE_ERROR
      ("AttachInput(): Person \x27" ++ name ++ "\x27 doesn\x27t exist")
  return 0

/-- Embeds `js_ExitMapEngine`. -/
def js_ExitMapEngine : M Int := do
  if (← getS).s_running then
    modifyS fun s => { s with s_exiting := true }
    return 0
  else
    duk_error ErrCode.DUK_ERR_ERROR "ExitMapEngine(): Operation requires map engine to be running"

/-- Embeds `js_RenderMap`. -/
def js_RenderMap (call : List Cmd → M Unit) : M Int := do
  if (← getS).s_running then
    render_map_engine call
    return 0
  else
    duk_error ErrCode.DUK_ERR_ERROR "RenderMap(): Operation requires map engine to be running"

/-- Embeds `js_UpdateMapEngine`. -/
def js_UpdateMapEngine (env : Env) (call : List Cmd → M Unit) : M Int := do
  if (← getS).s_running then
    update_map_engine env call
    return 0
  else
    duk_error ErrCode.DUK_ERR_ERROR "UpdateMapEngine(): Operation requires map engine to be running"

/-! ## Scripts -/

/-- The native function behind each API name (`init_map_engine_api`). -/
def api_func (env : Env) (call : List Cmd → M Unit) (fuel : Nat) : Cmd → M Int
  | .MapEngine filename framerate => js_MapEngine env call fuel filename framerate
  | .GetCurrentMap => js_GetCurrentMap
  | .GetMapEngineFrameRate => js_GetMapEngineFrameRate
  | .SetMapEngineFrameRate framerate => js_SetMapEngineFrameRate framerate
  | .SetDefaultMapScript script_type script => js_SetDefaultMapScript env script_type script
  | .SetRenderScript script => js_SetRenderScript env script
  | .SetUpdateScript script => js_SetUpdateScript env script
  | .IsMapEngineRunning => js_IsMapEngineRunning
  | .AttachCamera name => js_AttachCamera env name
  | .AttachInput name => js_AttachInput env name
  | .ExitMapEngine => js_ExitMapEngine
  | .RenderMap => js_RenderMap call
  | .UpdateMapEngine => js_UpdateMapEngine env call

/-- A script calls an API function: the native function runs on a value stack
of its own and the value it returns (the top of that stack when it returns 1)
goes back to the script. -/
def call_api (env : Env) (call : List Cmd → M Unit) (fuel : Nat) (c : Cmd) : M Unit := do
  logEv (Ev.api c)
  let saved := (← getS).vstack
  modifyS fun s => { s with vstack := [] }
  let nrets ← api_func env call fuel c
  let top := (← getS).vstack.head?
  logEv (Ev.api_return c (if nrets = 1 then top.getD Val.undefined else Val.undefined))
  modifyS fun s => { s with vstack := saved }

/-- A script body runs its calls in order; an error that `api` lets through ends it. -/
def run_script (api : Cmd → M Unit) : List Cmd → M Unit
  | [] => return ()
  | c :: rest => do
    api c
    run_script api rest

/-- Invocation of a compiled script none of whose calls stands inside a `try`
block, so that an error raised in a call ends the script and every caller
(`invoke_guarded` is the general case), with `fuel` bounding the nesting of
invocations and the iterations of each nested `js_MapEngine` loop. -/
def invoke (env : Env) : Nat → List Cmd → M Unit
  | 0 => fun _ => raise Fault.timeout
  | fuel + 1 => run_script (call_api env (invoke env fuel) fuel)

/-! ## Predicates used by the proofs -/

/-- The value of an outcome that returned (`d` otherwise). -/
def Res.value {α : Type} (d : α) : Res α → α
  | .ok a _ => a
  | .fail _ _ => d

/-! ## Demonstration inputs -/

/-- Position of the stream after `i` calls of the reader. -/
def stream_after (rd : List Nat → Option lstring_t × List Nat) (i : Nat) (file : List Nat) :
    List Nat :=
  Nat.iterate (fun f => (rd f).2) i file

/-- Modelled from the spec: `al_fread_lstring` is declared outside the sources
at hand; the spec calls the strings length-prefixed. Here the length is a
16-bit little-endian count, followed by that many bytes; a short read fails. -/
def al_fread_lstring_u16 : List Nat → Option lstring_t × List Nat
  | lo :: hi :: rest =>
    let len := lo % 256 + 256 * (hi % 256)
    if (rest.take len).length = len then (some (rest.take len), rest.drop len) else (none, [])
  | _ => (none, [])

/-- The encoding read back by `al_fread_lstring_u16`. -/
def encode_lstring_u16 (s : lstring_t) : List Nat :=
  [s.length % 256, s.length / 256 % 256] ++ s

/-- A reader that fails on a zero byte and goes on with the stream behind it,
and otherwise returns the byte as a one-byte string. -/
def flaky_reader : List Nat → Option lstring_t × List Nat
  | [] => (none, [])
  | 0 :: rest => (none, rest)
  | (n + 1) :: rest => (some [n + 1], rest)

/-- A version-1 header announcing `n` strings (all other fields zero). -/
def demo_header (n : Nat) : List Nat :=
  rmp_signature ++ [1, 0] ++ List.replicate 11 0 ++ [n % 256, n / 256 % 256] ++ List.replicate 237 0

/-- Scripts of the demonstration environment, by source text. -/
def demo_compile : lstring_t → Option (List Cmd)
  | [7] => some []
  | [1] => some [Cmd.ExitMapEngine]
  | [2] => some [Cmd.SetUpdateScript [1], Cmd.MapEngine "town.rmp" 60, Cmd.IsMapEngineRunning]
  | _ => none

/-- A demonstration environment: one file "town.rmp", one person "hero", a
frame clock that never aborts, Up and Left held down. -/
def demo_env (rd : List Nat → Option lstring_t × List Nat) (file : List Nat) : Env where
  get_asset_path := fun f => f
  al_fopen := fun p => if p = "town.rmp" then some file else none
  al_fread_lstring := rd
  uninitialized_is_null := true
  duk_compile := demo_compile
  find_person := fun _ name => if name = "hero" then some 1 else none
  begin_frame := fun _ _ => true
  al_get_keyboard_state := fun _ k => k = Key.ALLEGRO_KEY_UP || k = Key.ALLEGRO_KEY_LEFT
  get_person_xy := fun _ _ _ _ => (0, 0)

/-- The demonstration environment in which an uninitialised pointer does not
read as NULL. -/
def garbage_env_with (rd : List Nat → Option lstring_t × List Nat) (file : List Nat) : Env :=
  { demo_env rd file with uninitialized_is_null := false }

/-- The same with the 16-bit string reader. -/
def garbage_env (file : List Nat) : Env := garbage_env_with al_fread_lstring_u16 file

/-- The file "town.rmp" of the demonstrations: four strings, the last one (the
map's enter script) being the source `[7]` of the empty script. -/
def town_file : List Nat := demo_header 4 ++ [0, 0, 0, 0, 0, 0, 1, 0, 7]

/-- The demonstration environment with `town_file`. -/
def town_env : Env := demo_env al_fread_lstring_u16 town_file

/-- A state inside a running session on "town.rmp" whose update script calls
`ExitMapEngine`. -/
def exit_session : State :=
  { State.init with
    s_running := true
    s_framerate := 60
    s_map := some { width := 0, height := 0, scripts := [some [], some [], some [], some [7]] }
    s_map_filename := some "town.rmp"
    stash := fun k => if k = "update_script" then Val.function [Cmd.ExitMapEngine]
                      else Val.undefined }

/-- An idle engine whose update script calls `ExitMapEngine`. -/
def exit_idle : State :=
  { State.init with
    stash := fun k => if k = "update_script" then Val.function [Cmd.ExitMapEngine]
                      else Val.undefined }

/-- The update script of the nesting demonstrations: it installs an update
script that calls `ExitMapEngine`, runs the map engine again, and then asks
whether the map engine is running. -/
def nesting_script : List Cmd :=
  [Cmd.SetUpdateScript [1], Cmd.MapEngine "town.rmp" 60, Cmd.IsMapEngineRunning]

/-- An idle engine whose update script is `nesting_script`. -/
def nesting_idle : State :=
  { State.init with
    stash := fun k => if k = "update_script" then Val.function nesting_script
                      else Val.undefined }

/-- The four directions the input step can choose. -/
inductive Direction where
  | North
  | East
  | South
  | West
deriving DecidableEq

/-- The priority order of the spec: Up, Right, Down, Left, each with its
direction. -/
def input_priority : List (Key × Direction) :=
  [(Key.ALLEGRO_KEY_UP, Direction.North), (Key.ALLEGRO_KEY_RIGHT, Direction.East),
   (Key.ALLEGRO_KEY_DOWN, Direction.South), (Key.ALLEGRO_KEY_LEFT, Direction.West)]

/-- The direction of the first key held in the priority order, if any (the
spec's "first match wins"). -/
def dominant_direction (kb_state : Key → Bool) : Option Direction :=
  (input_priority.find? fun kd => kb_state kd.1).map fun kd => kd.2

/-- The Face command of a direction. -/
def face_command : Direction → person_cmd
  | .North => person_cmd.COMMAND_FACE_NORTH
  | .East => person_cmd.COMMAND_FACE_EAST
  | .South => person_cmd.COMMAND_FACE_SOUTH
  | .West => person_cmd.COMMAND_FACE_WEST

/-- The Move command of a direction. -/
def move_command : Direction → person_cmd
  | .North => person_cmd.COMMAND_MOVE_NORTH
  | .East => person_cmd.COMMAND_MOVE_EAST
  | .South => person_cmd.COMMAND_MOVE_SOUTH
  | .West => person_cmd.COMMAND_MOVE_WEST

/-- The commands the spec has the input step enqueue to person `p`: Face then
Move for the dominant direction, nothing when no key is held. -/
def input_commands (kb_state : Key → Bool) (p : person_t) : List Ev :=
  match dominant_direction kb_state with
  | none => []
  | some d => [Ev.command_person p (face_command d), Ev.command_person p (move_command d)]

/-! ## Blocks of change_map and render_map_engine, and the header layout -/

/-- Lines 155-161 of `change_map`: run default map entry script. -/
def change_map.run_default_entry (call : List Cmd → M Unit) : M Unit := do
  duk_push_global_stash
  duk_get_prop_string "map_def_enter_script"
  if (← duk_is_callable) then
    duk_call call
    duk_pop
  duk_pop

/-- Lines 163-167 of `change_map`: run map entry script, then `return true`. -/
def change_map.run_entry_script (env : Env) (call : List Cmd → M Unit) : M Bool := do
  match (← getS).s_map with
  | none => raise (Fault.crash "s_map is NULL")
  | some cur =>
    match cur.scripts.get? 3 with
    | none => raise (Fault.crash "s_map->scripts[3] is outside the array")
    | some none => raise (Fault.crash "s_map->scripts[3] is NULL")
    | some (some src) =>
      duk_compile_lstring env src
      duk_call call
      duk_pop
      return true

/-- Lines 179-182 of `render_map_engine`: run render script. -/
def render_map_engine.run_script (call : List Cmd → M Unit) : M Unit := do
  duk_push_global_stash
  duk_get_prop_string "render_script"
  if (← duk_is_callable) then duk_call call
  duk_pop_2

/-- The members of `struct rmp_header` with their sizes in bytes, in
declaration order (`char` and the 8-bit integers 1, `int16_t` 2). -/
def rmp_header_fields : List (String × Nat) :=
  [("signature", 4), ("version", 2), ("type", 1), ("num_layers", 1), ("reserved_1", 1),
   ("num_entities", 2), ("start_x", 2), ("start_y", 2), ("start_layer", 1),
   ("start_direction", 1), ("num_strings", 2), ("num_zones", 2), ("toric_map", 1),
   ("reserved", 234)]

/-- Offsets of the members of a struct laid out under `#pragma pack(push, 1)`:
each member starts where the one before it ends. -/
def packed_offsets : Nat → List (String × Nat) → List (String × Nat)
  | _, [] => []
  | start, (name, size) :: rest => (name, start) :: packed_offsets (start + size) rest

/-- A map file with a valid version-1 header and three (empty) strings, so
that the script table has no entry 3. -/
def short_file : List Nat := demo_header 3 ++ [0, 0, 0, 0, 0, 0]

/-- The demonstration environment with `short_file`. -/
def short_env : Env := demo_env al_fread_lstring_u16 short_file

/-- An idle engine with person 1 attached as the camera. -/
def camera_idle : State := { State.init with s_camera_person := some 1 }

/-- A running session on a map of five strings (entry 3 the enter script,
entry 4 the leave script of the map) in which the default leave script and the
four directional leave scripts are all set to a script calling
`IsMapEngineRunning`. -/
def leave_session : State :=
  { State.init with
    s_running := true
    s_framerate := 60
    s_map := some { width := 0, height := 0,
                    scripts := [some [], some [], some [], some [7], some [1]] }
    s_map_filename := some "old.rmp"
    stash := fun k =>
      if k = "map_def_leave_script" ∨ k = "map_def_leave_north_script" ∨
          k = "map_def_leave_east_script" ∨ k = "map_def_leave_south_script" ∨
          k = "map_def_leave_west_script" then Val.function [Cmd.IsMapEngineRunning]
      else Val.undefined }

/-- Largest value of a C `int`. -/
def INT_MAX : Int := 2147483647

/-- Smallest value of a C `int`. -/
def INT_MIN : Int := -2147483648

/-- Result of an `int` operation whose mathematical value is `x`: arithmetic of the 32-bit
`int` is taken to wrap around in two's complement. -/
def wrap_int (x : Int) : Int := (x + 2147483648) % 4294967296 - 2147483648

/-- Embeds `struct bytearray`; `buffer` lists the bytes of the allocation `buffer` points to. -/
structure bytearray_t where
  refcount : Int
  buffer : List Nat
  size : Int
deriving DecidableEq

/-- Embeds `ref_bytearray`. -/
def ref_bytearray (array : bytearray_t) : bytearray_t :=
  { array with refcount := array.refcount + 1 }

/-- Embeds `new_bytearray`; `none` is the NULL return. The allocation of the struct and a
`calloc` of a non-negative count are taken to succeed; a negative `int` converts to a `size_t`
above 2^63, for which `calloc` returns NULL. -/
def new_bytearray (size : Int) : Option bytearray_t :=
  if size < 0 then none
  else some (ref_bytearray { refcount := 0, buffer := List.replicate size.toNat 0, size := size })

/-- Embeds `free_bytearray` on a non-NULL array: `none` when the count reached zero and the
array was released, otherwise the array with one reference fewer. -/
def free_bytearray (array : bytearray_t) : Option bytearray_t :=
  if array.refcount - 1 > 0 then some { array with refcount := array.refcount - 1 }
  else none

/-- Embeds `memcpy(dest + dest_off, src + src_off, n)` on two allocations: the bytes of `dest`
after the copy. Copying from or to addresses outside the allocations is undefined behaviour. -/
def memcpy (dest : List Nat) (dest_off : Int) (src : List Nat) (src_off : Int) (n : Int) :
    Except Fault (List Nat) :=
  if n < 0 then .error (Fault.crash "memcpy: negative length")
  else if n = 0 then .ok dest
  else if src_off < 0 ∨ (src.length : Int) < src_off + n then
    .error (Fault.crash "memcpy reads outside the source buffer")
  else if dest_off < 0 ∨ (dest.length : Int) < dest_off + n then
    .error (Fault.crash "memcpy writes outside the destination buffer")
  else
    .ok (dest.take dest_off.toNat ++ (src.drop src_off.toNat).take n.toNat ++
      dest.drop (dest_off + n).toNat)

/-- Embeds `bytearray_from_lstring`; `none` is the NULL return. -/
def bytearray_from_lstring (string : lstring_t) : Except Fault (Option bytearray_t) :=
  if (string.length : Int) > INT_MAX then .ok none
  else
    match new_bytearray (string.length : Int) with
    | none => .ok none
    | some array => do
      let buffer ← memcpy array.buffer 0 string 0 string.length
      .ok (some { array with buffer := buffer })

/-- Embeds `concat_bytearrays`; `none` is the NULL return. -/
def concat_bytearrays (array1 array2 : bytearray_t) : Except Fault (Option bytearray_t) :=
  let new_size := wrap_int (array1.size + array2.size)
  match new_bytearray new_size with
  | none => .ok none
  | some new_array => do
    let buffer ← memcpy new_array.buffer 0 array1.buffer 0 array1.size
    let buffer ← memcpy buffer array1.size array2.buffer 0 array2.size
    .ok (some { new_array with buffer := buffer })

/-- Embeds `slice_bytearray`; `none` is the NULL return. -/
def slice_bytearray (array : bytearray_t) (start length : Int) :
    Except Fault (Option bytearray_t) :=
  match new_bytearray length with
  | none => .ok none
  | some new_array => do
    let buffer ← memcpy new_array.buffer 0 array.buffer start length
    .ok (some { new_array with buffer := buffer })

/-- Embeds the effect of `duk_push_sphere_bytearray` on the native array: the script object
takes its own reference. The proxy object built around it never touches the array. -/
def duk_push_sphere_bytearray (array : bytearray_t) : bytearray_t := ref_bytearray array

/-- Embeds `js_new_ByteArray`: the argument is a string (`Sum.inl`) or, after
`duk_require_int`, an `int` (`Sum.inr`). The result is the native array as the call leaves it,
`none` if the call released it. -/
def js_new_ByteArray (arg : lstring_t ⊕ Int) : Except Fault (Option bytearray_t) := do
  let array ←
    match arg with
    | .inl string =>
      if (string.length : Int) > INT_MAX then
        .error (Fault.error ErrCode.DUK_ERR_RANGE_ERROR "ByteArray(): Input string is too long")
      else
        match (← bytearray_from_lstring string) with
        | none =>
          .error (Fault.error ErrCode.DUK_ERR_ERROR
            "ByteArray(): Failed to create byte array from string")
        | some array => pure array
    | .inr size =>
      if size < 0 then
        .error (Fault.error ErrCode.DUK_ERR_RANGE_ERROR "ByteArray(): Size cannot be negative")
      else
        match new_bytearray size with
        | none =>
          .error (Fault.error ErrCode.DUK_ERR_ERROR "ByteArray(): Failed to create new byte array")
        | some array => pure array
  let array := duk_push_sphere_bytearray array
  pure (free_bytearray array)

/-- Embeds `js_ByteArray_finalize`: the one `free_bytearray` the script object makes when it is
collected; `none` when the array was released. -/
def js_ByteArray_finalize (array : bytearray_t) : Option bytearray_t := free_bytearray array

/-- Embeds `js_ByteArray_concat` on `this = array` and the argument `array2`: the native
array handed to script, as the call leaves it. -/
def js_ByteArray_concat (array array2 : bytearray_t) : Except Fault bytearray_t := do
  if wrap_int (array.size + array2.size) > INT_MAX then
    .error (Fault.error ErrCode.DUK_ERR_RANGE_ERROR
      "ByteArray:concat(): Unable to concatenate, final size would exceed 2 GB")
  else
    match (← concat_bytearrays array array2) with
    | none =>
      .error (Fault.error ErrCode.DUK_ERR_ERROR
        "ByteArray:concat(): Failed to create concatenated byte array")
    | some new_array => pure (duk_push_sphere_bytearray new_array)

/-- Embeds the `end_norm` expression of `js_ByteArray_slice`. The `fmin` of two `int` values
is exact in `double`, and so is the conversion of its result back to `int`. -/
def js_ByteArray_slice.end_norm (size end_ : Int) : Int :=
  min (if end_ ≥ 0 then end_ else wrap_int (size + end_)) size

/-- Embeds `js_ByteArray_slice` on `this = array`: `start` is the first argument after
`duk_require_int`, `end_` the second one when the call has it (`INT_MAX` otherwise). The result
is the native array handed to script, as the call leaves it. -/
def js_ByteArray_slice (array : bytearray_t) (start : Int) (end_arg : Option Int) :
    Except Fault bytearray_t := do
  let end_ := end_arg.getD INT_MAX
  let end_norm := js_ByteArray_slice.end_norm array.size end_
  if end_norm < start ∨ end_norm > array.size then
    .error (Fault.error ErrCode.DUK_ERR_RANGE_ERROR
      "ByteArray:slice(): Start and/or end values out of bounds")
  else
    match (← slice_bytearray array start (wrap_int (end_norm - start))) with
    | none =>
      .error (Fault.error ErrCode.DUK_ERR_ERROR
        "ByteArray:slice(): Failed to create sliced byte array")
    | some new_array => pure (duk_push_sphere_bytearray new_array)

/-- The byte arrays the C code builds: the buffer holds `size` bytes and `size` is a
non-negative `int`. -/
def bytearray_wf (array : bytearray_t) : Prop :=
  (array.buffer.length : Int) = array.size ∧ array.size ≤ INT_MAX

instance (array : bytearray_t) : Decidable (bytearray_wf array) := by
  unfold bytearray_wf
  infer_instance

/-- A byte array of 2^30 zero bytes. -/
def big_array : bytearray_t :=
  { refcount := 1, buffer := List.replicate 1073741824 0, size := 1073741824 }

/-- A four-byte array. -/
def quad_array : bytearray_t := { refcount := 1, buffer := [10, 20, 30, 40], size := 4 }

/-- A two-byte array. -/
def pair_array : bytearray_t := { refcount := 1, buffer := [50, 60], size := 2 }

/-! ## The key queue (input.c) -/

/-- Embeds `struct key_queue`; `keys` lists the 255 slots of the array. -/
structure key_queue where
  num_keys : Int
  keys : List Int
deriving DecidableEq

/-- Embeds the static `s_key_queue` as the program starts: static storage is zeroed. -/
def s_key_queue : key_queue := { num_keys := 0, keys := List.replicate 255 0 }

/-- Embeds `clear_key_queue`. -/
def clear_key_queue (q : key_queue) : key_queue := { q with num_keys := 0 }

/-- Embeds `queue_key`. -/
def queue_key (keycode : Int) (q : key_queue) : key_queue :=
  if q.num_keys < 255 then
    let key_index := q.num_keys
    { num_keys := q.num_keys + 1, keys := q.keys.set key_index.toNat keycode }
  else q

/-- Embeds `memmove(keys, &keys[1], sizeof(int) * n)`: slots `1..n` move to `0..n-1`, the
slots from `n` on keep their values. -/
def memmove_keys (keys : List Int) (n : Int) : List Int :=
  (keys.drop 1).take n.toNat ++ keys.drop n.toNat

/-- Embeds `js_GetKey`: the key pushed for the script and the queue left behind. On an empty
queue the call stays in its `do_events` loop until a key arrives; that is `none` here. -/
def js_GetKey (q : key_queue) : Option (Int × key_queue) :=
  if q.num_keys = 0 then none
  else
    let keycode := q.keys.head?.getD 0
    let num_keys := q.num_keys - 1
    some (keycode, { num_keys := num_keys, keys := memmove_keys q.keys num_keys })

/-- One operation on the key queue. -/
inductive key_op where
  | queue_key (keycode : Int)
  | clear_key_queue
  | GetKey
deriving DecidableEq

/-- Runs a sequence of operations on the key queue, collecting the keys `GetKey` returns in
order; `none` when a `GetKey` meets an empty queue. -/
def run_key_ops : List key_op → key_queue → Option (key_queue × List Int)
  | [], q => some (q, [])
  | key_op.queue_key k :: rest, q => run_key_ops rest (queue_key k q)
  | key_op.clear_key_queue :: rest, q => run_key_ops rest (clear_key_queue q)
  | key_op.GetKey :: rest, q =>
    match js_GetKey q with
    | none => none
    | some (k, q1) => (run_key_ops rest q1).map fun r => (r.1, k :: r.2)

/-- The keys waiting in the queue, oldest first. -/
def key_queue_contents (q : key_queue) : List Int := q.keys.take q.num_keys.toNat

/-- The queue has its 255 slots and a count within `0..255`. -/
def key_queue_valid (q : key_queue) : Prop :=
  0 ≤ q.num_keys ∧ q.num_keys ≤ 255 ∧ q.keys.length = 255

instance (q : key_queue) : Decidable (key_queue_valid q) := by
  unfold key_queue_valid
  infer_instance

/-- The bounded FIFO of the claim, in its own words: a list of at most 255 keys that accepts
a key at the back unless it is full, and gives keys up at the front. `none` when a key is
asked of an empty list. -/
def run_fifo : List key_op → List Int → Option (List Int × List Int)
  | [], l => some (l, [])
  | key_op.queue_key k :: rest, l => run_fifo rest (if l.length < 255 then l ++ [k] else l)
  | key_op.clear_key_queue :: rest, _ => run_fifo rest []
  | key_op.GetKey :: rest, l =>
    match l with
    | [] => none
    | k :: l1 => (run_fifo rest l1).map fun r => (r.1, k :: r.2)

/-! ## Images (image.c) -/

/-- The color record declared in color.h, with the four byte fields image.c reads from it. -/
structure color_t where
  r : Nat
  g : Nat
  b : Nat
  alpha : Nat
deriving DecidableEq

/-- A bitmap, as the rows of bytes a lock in `ALLEGRO_PIXEL_FORMAT_ABGR_8888` presents: four
bytes R, G, B, A for each pixel of a row. -/
abbrev ALLEGRO_BITMAP := List (List Nat)

/-- Embeds `struct image` without the `parent` pointer, which none of the functions embedded
here follows. -/
structure image_t where
  refcount : Int
  bitmap : ALLEGRO_BITMAP
  pixel_cache : Option (List Nat)
  width : Int
  height : Int
deriving DecidableEq

/-- What image.c takes from outside the sources: the Allegro calls and the two flip constants
of the Allegro header, and the color constructor `rgba` of color.h. `al_lock_bitmap` tells
whether the lock succeeds, `al_get_pixel` gives the four bytes `al_unmap_rgba` extracts from
the pixel, and `al_draw_bitmap` gives the target bitmap after the source was drawn onto it
with the flags. -/
structure Allegro where
  rgba : Nat → Nat → Nat → Nat → color_t
  al_lock_bitmap : ALLEGRO_BITMAP → Bool
  al_get_pixel : ALLEGRO_BITMAP → Int → Int → Nat × Nat × Nat × Nat
  al_create_bitmap : Int → Int → Option ALLEGRO_BITMAP
  al_draw_bitmap : ALLEGRO_BITMAP → ALLEGRO_BITMAP → Nat → ALLEGRO_BITMAP
  ALLEGRO_FLIP_HORIZONTAL : Nat
  ALLEGRO_FLIP_VERTICAL : Nat

/-- The `uint32_t` a little-endian host reads from four consecutive bytes. -/
def uint32_of_bytes (b0 b1 b2 b3 : Nat) : Nat :=
  (b0 + b1 * 256 + b2 * 65536 + b3 * 16777216) % 4294967296

/-- Embeds the `memcpy` of one locked row into the cache: `count` pixels of four bytes each;
a row with fewer bytes is read past its end. -/
def cache_pixels.copy_row : Nat → List Nat → Except Fault (List Nat)
  | 0, _ => .ok []
  | count + 1, b0 :: b1 :: b2 :: b3 :: rest => do
    let tail ← cache_pixels.copy_row count rest
    .ok (uint32_of_bytes b0 b1 b2 b3 :: tail)
  | _ + 1, _ => .error (Fault.crash "memcpy reads outside the locked row")

/-- Embeds the row loop of `cache_pixels`. -/
def cache_pixels.copy_rows (width : Nat) : Nat → List (List Nat) → Except Fault (List Nat)
  | 0, _ => .ok []
  | count + 1, row :: rest => do
    let head ← cache_pixels.copy_row width row
    let tail ← cache_pixels.copy_rows width count rest
    .ok (head ++ tail)
  | _ + 1, [] => .error (Fault.crash "memcpy reads outside the locked region")

/-- Embeds `cache_pixels`; the `malloc` of the cache is taken to succeed. -/
def cache_pixels (env : Allegro) (image : image_t) : Except Fault image_t :=
  match image.pixel_cache with
  | some _ => .ok image
  | none =>
    if env.al_lock_bitmap image.bitmap then do
      let cache ← cache_pixels.copy_rows image.width.toNat image.height.toNat image.bitmap
      .ok { image with pixel_cache := some cache }
    else .ok image

/-- Embeds `uncache_pixels`. -/
def uncache_pixels (image : image_t) : image_t := { image with pixel_cache := none }

/-- Embeds `get_image_pixel`: the color returned and the image, whose cache the call may have
filled. -/
def get_image_pixel (env : Allegro) (image : image_t) (x y : Int) :
    Except Fault (color_t × image_t) := do
  let image ← cache_pixels env image
  match image.pixel_cache with
  | none =>
    let (r, g, b, alpha) := env.al_get_pixel image.bitmap x y
    .ok (env.rgba r g b alpha, image)
  | some cache =>
    -- note: AA BB GG RR
    let index := x + y * image.width
    if index < 0 ∨ (cache.length : Int) ≤ index then
      .error (Fault.crash "pixel_cache is read outside the cache")
    else
      let pixel := cache.getD index.toNat 0
      let r := pixel >>> 16 &&& 0xFF
      let g := pixel >>> 8 &&& 0xFF
      let b := pixel &&& 0xFF
      let alpha := pixel >>> 24 &&& 0xFF
      .ok (env.rgba r g b alpha, image)

/-- Embeds the computation of `draw_flags` in `flip_image`. -/
def flip_image.draw_flags (env : Allegro) (is_h_flip is_v_flip : Bool) : Nat :=
  let draw_flags : Nat := 0x0
  let draw_flags := if is_h_flip then draw_flags &&& env.ALLEGRO_FLIP_HORIZONTAL else draw_flags
  let draw_flags := if is_v_flip then draw_flags &&& env.ALLEGRO_FLIP_VERTICAL else draw_flags
  draw_flags

/-- Embeds `flip_image`: the value returned and the image afterwards. -/
def flip_image (env : Allegro) (image : image_t) (is_h_flip is_v_flip : Bool) :
    Bool × image_t :=
  if !is_h_flip && !is_v_flip then (true, image)
  else
    let image := uncache_pixels image
    match env.al_create_bitmap image.width image.height with
    | none => (false, image)
    | some new_bitmap =>
      let draw_flags := flip_image.draw_flags env is_h_flip is_v_flip
      let new_bitmap := env.al_draw_bitmap new_bitmap image.bitmap draw_flags
      (true, { image with bitmap := new_bitmap })

/-- The 32-bit value of an ABGR_8888 pixel in the words of the claim. -/
def abgr_8888 (R G B A : Nat) : Nat := A <<< 24 ||| B <<< 16 ||| G <<< 8 ||| R

/-- Reverses the pixels of a row of bytes. -/
def reverse_pixels : List Nat → List Nat
  | r :: g :: b :: a :: rest => reverse_pixels rest ++ [r, g, b, a]
  | _ => []

/-- An Allegro whose calls succeed and whose `al_draw_bitmap` mirrors the source as the flags
ask, with the flip constants of the Allegro 5 header. -/
def demo_allegro : Allegro :=
  { rgba := fun r g b alpha => { r := r, g := g, b := b, alpha := alpha }
    al_lock_bitmap := fun _ => true
    al_get_pixel := fun _ _ _ => (0, 0, 0, 0)
    al_create_bitmap := fun w h => some (List.replicate h.toNat (List.replicate (4 * w.toNat) 0))
    al_draw_bitmap := fun _ source flags =>
      let rows := if flags &&& 2 = 2 then source.reverse else source
      if flags &&& 1 = 1 then rows.map reverse_pixels else rows
    ALLEGRO_FLIP_HORIZONTAL := 1
    ALLEGRO_FLIP_VERTICAL := 2 }

/-- An image of two pixels in one row, without a pixel cache. -/
def demo_image : image_t :=
  { refcount := 1
    bitmap := [[1, 2, 3, 4, 5, 6, 7, 8]]
    pixel_cache := none
    width := 2
    height := 1 }

/-! ## The entity model (persons.h declares it; person.c is not among the sources) -/

/-- Modelled from the spec: the eight directions an entity can face; the source has only the
command names of `enum person_cmd` for them. -/
inductive Compass where
  | N
  | NE
  | E
  | SE
  | S
  | SW
  | W
  | NW
deriving DecidableEq

/-- Modelled from the spec: the person record behind the `struct person` that persons.h only
declares: unique name, position (x, y, layer), facing direction, movement speed and the FIFO
of pending commands, with a counter for the walk animation. The spec types x, y and speed as
floats; here they are exact rationals. -/
structure person where
  name : String
  x : ℚ
  y : ℚ
  layer : Int
  direction : Compass
  speed : ℚ
  animation : Nat
  commandQueue : List person_cmd
deriving DecidableEq

/-- Modelled from the spec: what a command asks for, a tagged value from the set Wait,
Animate, Face of a direction, Move in a direction. -/
inductive Command where
  | Wait
  | Animate
  | Face (dir : Compass)
  | Move (dir : Compass)
deriving DecidableEq

/-- Modelled from the spec: reads a member of `enum person_cmd` as the command it names. -/
def person_cmd.toCommand : person_cmd → Command
  | .COMMAND_WAIT => .Wait
  | .COMMAND_ANIMATE => .Animate
  | .COMMAND_FACE_NORTH => .Face .N
  | .COMMAND_FACE_NORTHEAST => .Face .NE
  | .COMMAND_FACE_EAST => .Face .E
  | .COMMAND_FACE_SOUTHEAST => .Face .SE
  | .COMMAND_FACE_SOUTH => .Face .S
  | .COMMAND_FACE_SOUTHWEST => .Face .SW
  | .COMMAND_FACE_WEST => .Face .W
  | .COMMAND_FACE_NORTHWEST => .Face .NW
  | .COMMAND_MOVE_NORTH => .Move .N
  | .COMMAND_MOVE_NORTHEAST => .Move .NE
  | .COMMAND_MOVE_EAST => .Move .E
  | .COMMAND_MOVE_SOUTHEAST => .Move .SE
  | .COMMAND_MOVE_SOUTH => .Move .S
  | .COMMAND_MOVE_SOUTHWEST => .Move .SW
  | .COMMAND_MOVE_WEST => .Move .W
  | .COMMAND_MOVE_NORTHWEST => .Move .NW

/-- Modelled from the spec: the step of a direction along x and y. The spec fixes that East
advances x and leaves y alone; the other directions follow the same rule in screen
coordinates (y grows to the south). -/
def Compass.step : Compass → Int × Int
  | .N => (0, -1)
  | .NE => (1, -1)
  | .E => (1, 0)
  | .SE => (1, 1)
  | .S => (0, 1)
  | .SW => (-1, 1)
  | .W => (-1, 0)
  | .NW => (-1, -1)

/-- Modelled from the spec: `command_person`, absent from the sources, appends a command to
the entity's FIFO of pending commands. -/
def command_person (p : person) (command : person_cmd) : person :=
  { p with commandQueue := p.commandQueue ++ [command] }

/-- Modelled from the spec: the part of `update_persons`, absent from the sources, that
advances one entity by one tick. It drains at most one command: Face changes the facing
only; Move computes the candidate position at `speed` distance in the direction, asks the
obstruction query `is_person_obstructed_at` (a parameter here), and on a clear path commits
the position and advances the walk animation, on an obstructed path drops the move. -/
def update_person (is_person_obstructed_at : person → ℚ → ℚ → Bool) (p : person) : person :=
  match p.commandQueue with
  | [] => p
  | command :: rest =>
    let q := { p with commandQueue := rest }
    match command.toCommand with
    | .Wait => q
    | .Animate => { q with animation := q.animation + 1 }
    | .Face dir => { q with direction := dir }
    | .Move dir =>
      let x := p.x + dir.step.1 * p.speed
      let y := p.y + dir.step.2 * p.speed
      if is_person_obstructed_at p x y then q
      else { q with x := x, y := y, animation := q.animation + 1 }

/-- Modelled from the spec: `update_persons`, absent from the sources, advances every
registered entity by one tick. -/
def update_persons (is_person_obstructed_at : person → ℚ → ℚ → Bool)
    (registry : List person) : List person :=
  registry.map (update_person is_person_obstructed_at)

/-- An entity at (3/2, 4) with speed 1/2 and one pending Move East. -/
def demo_person : person :=
  { name := "hero"
    x := 3 / 2
    y := 4
    layer := 0
    direction := Compass.S
    speed := 1 / 2
    animation := 0
    commandQueue := [person_cmd.COMMAND_MOVE_EAST] }

/-! ## Scripts that catch errors -/

/-- A script calls an API function inside `try { ... } catch (e) { }` when `guarded` says so
of the call and the history before it: an error the call raises with `duk_error` then ends
the call and not the script. The statics keep what the call had written before the throw,
the value stack is unwound to the script's, and the catch is logged. Undefined behaviour and
exhausted fuel are not errors a script can catch. -/
def call_api_guarded (env : Env) (guarded : List Ev → Cmd → Bool) (call : List Cmd → M Unit)
    (fuel : Nat) (c : Cmd) : M Unit := fun s =>
  match call_api env call fuel c s with
  | .fail (Fault.error code msg) s1 =>
    if guarded s.trace c then
      .ok () { s1 with vstack := s.vstack, trace := s1.trace ++ [Ev.caught c] }
    else .fail (Fault.error code msg) s1
  | r => r

/-- Invocation of a compiled script some of whose calls are guarded by `try`, the scripts it
starts in turn included; `invoke` is the case of scripts that guard no call. -/
def invoke_guarded (env : Env) (guarded : List Ev → Cmd → Bool) : Nat → List Cmd → M Unit
  | 0 => fun _ => raise Fault.timeout
  | fuel + 1 => run_script (call_api_guarded env guarded (invoke_guarded env guarded fuel) fuel)

/-- A state inside a running session on "town.rmp" with no script installed. -/
def plain_session : State :=
  { State.init with
    s_running := true
    s_framerate := 60
    s_map := some { width := 0, height := 0, scripts := [some [], some [], some [], some [7]] }
    s_map_filename := some "town.rmp" }

/-! ## Running the monad -/

theorem bind_run {α β : Type} (m : M α) (f : α → M β) (s : State) :
    (m >>= f) s = match m s with
      | .ok a s1 => f a s1
      | .fail e s1 => .fail e s1 := rfl

theorem pure_run {α : Type} (a : α) (s : State) : (pure a : M α) s = Res.ok a s := rfl

theorem getS_run (s : State) : getS s = Res.ok s s := rfl

theorem modifyS_run (f : State → State) (s : State) : modifyS f s = Res.ok () (f s) := rfl

theorem raise_run {α : Type} (e : Fault) (s : State) : (raise e : M α) s = Res.fail e s := rfl

theorem logEv_run (e : Ev) (s : State) :
    logEv e s = Res.ok () { s with trace := s.trace ++ [e] } := rfl

/-! ## Sticky: composition rules -/

theorem loop_succ (env : Env) (call : List Cmd → M Unit) (n : Nat) (s : State) :
    js_MapEngine.loop env call (n + 1) s =
      if s.s_exiting = true then Res.ok () s
      else match js_MapEngine.frame env call s with
        | .ok _ s1 => js_MapEngine.loop env call n s1
        | .fail e s1 => .fail e s1 := by
  rw [js_MapEngine.loop]
  simp only [bind_run, getS_run]
  split
  · rfl
  · rw [bind_run]
    cases js_MapEngine.frame env call s <;> rfl

theorem loop_exit (env : Env) (call : List Cmd → M Unit) (fuel : Nat) :
    ∀ (s : State) (u : Unit) (s' : State),
      js_MapEngine.loop env call fuel s = Res.ok u s' → s'.s_exiting = true := by
  induction fuel with
  | zero =>
    intro s u s' h
    simp [js_MapEngine.loop, raise_run] at h
  | succ n ih =>
    intro s u s' h
    rw [loop_succ] at h
    split at h
    · rename_i hx
      cases h
      exact hx
    · split at h
      · exact ih _ _ _ h
      · cases h

theorem js_MapEngine_run (env : Env) (call : List Cmd → M Unit) (fuel : Nat)
    (filename : String) (framerate : Int) (s : State) :
    js_MapEngine env call fuel filename framerate s =
      match change_map env call filename
          { s with s_running := true, s_exiting := false, s_framerate := framerate,
                   trace := s.trace ++ [Ev.al_clear_to_color] } with
      | .fail e s1 => .fail e s1
      | .ok _ s1 =>
        match js_MapEngine.loop env call fuel s1 with
        | .fail e s2 => .fail e s2
        | .ok _ s2 => .ok 0 { s2 with s_running := false } := by
  rw [js_MapEngine]
  simp only [bind_run, modifyS_run, logEv_run, pure_run]
  cases change_map env call filename _ with
  | fail e s1 => rfl
  | ok b s1 =>
    dsimp only
    cases js_MapEngine.loop env call fuel s1 with
    | fail e s2 => rfl
    | ok u s2 => rfl

theorem js_MapEngine_exit (env : Env) (call : List Cmd → M Unit) (fuel : Nat)
    (filename : String) (framerate : Int) (s : State) (v : Int) (s' : State)
    (h : js_MapEngine env call fuel filename framerate s = Res.ok v s') :
    s'.s_exiting = true ∧ s'.s_running = false := by
  rw [js_MapEngine_run] at h
  split at h
  · cases h
  · split at h
    · cases h
    · rename_i s2 hl
      cases h
      exact ⟨loop_exit env call fuel _ _ s2 hl, rfl⟩

theorem call_api_run (env : Env) (call : List Cmd → M Unit) (fuel : Nat) (c : Cmd) (s : State) :
    call_api env call fuel c s =
      match api_func env call fuel c { s with trace := s.trace ++ [Ev.api c], vstack := [] } with
      | .fail e s1 => .fail e s1
      | .ok nrets s1 =>
        .ok () { s1 with
          trace := s1.trace ++
            [Ev.api_return c (if nrets = 1 then s1.vstack.head?.getD Val.undefined else Val.undefined)],
          vstack := s.vstack } := by
  rw [call_api]
  simp only [bind_run, logEv_run, getS_run, modifyS_run]
  cases api_func env call fuel c _ <;> rfl

theorem render_map_engine_none (call : List Cmd → M Unit) (s : State)
    (h : s.s_map_filename = none) :
    render_map_engine call s =
      Res.fail (Fault.crash "al_draw_text: s_map_filename is NULL") s := by
  rw [render_map_engine, bind_run, getS_run]
  dsimp only
  conv_lhs => rw [h]
  rfl

theorem render_map_engine_some (call : List Cmd → M Unit) (s : State) (text : String)
    (h : s.s_map_filename = some text) :
    render_map_engine call s =
      (do logEv Ev.render_persons
          duk_push_global_stash
          duk_get_prop_string "render_script"
          if (← duk_is_callable) then duk_call call
          duk_pop_2) { s with trace := s.trace ++ [Ev.al_draw_text text] } := by
  rw [render_map_engine, bind_run, getS_run]
  dsimp only
  conv_lhs => rw [h]
  rfl

theorem update_map_engine_run (env : Env) (call : List Cmd → M Unit) (s : State) :
    update_map_engine env call s =
      (do update_map_engine.check_input env
          update_map_engine.update_camera env
          update_map_engine.run_script call) { s with trace := s.trace ++ [Ev.update_persons] } := by
  rw [update_map_engine]
  rfl

theorem rmp_header_size_eq : rmp_header_size = 256 := rfl

theorem read_int16_take (file : List Nat) (off n : Nat) (h : off + 1 < n) :
    read_int16 (file.take n) off = read_int16 file off := by
  have h1 : (file.take n).getD off 0 = file.getD off 0 := by
    simp [List.getD_eq_getElem?_getD, List.getElem?_take, show off < n by omega]
  have h2 : (file.take n).getD (off + 1) 0 = file.getD (off + 1) 0 := by
    simp [List.getD_eq_getElem?_getD, List.getElem?_take, h]
  simp only [read_int16, h1, h2]

theorem read_scripts_length (rd : List Nat → Option lstring_t × List Nat) (n : Nat) :
    ∀ file, (load_map.read_scripts rd n file).2.length = n := by
  induction n with
  | zero => intro file; rfl
  | succ k ih => intro file; simp [load_map.read_scripts, ih]

theorem read_scripts_failed (rd : List Nat → Option lstring_t × List Nat) (n : Nat) :
    ∀ (file : List Nat) (i : Nat), i < n → (rd (stream_after rd i file)).1 = none →
      (load_map.read_scripts rd n file).1 = true := by
  induction n with
  | zero => intro file i hi; omega
  | succ k ih =>
    intro file i hi hf
    cases i with
    | zero =>
      simp only [stream_after, Function.iterate_zero, id_eq] at hf
      simp [load_map.read_scripts, hf]
    | succ j =>
      have := ih (rd file).2 j (by omega) (by simpa [stream_after, Function.iterate_succ_apply] using hf)
      simp [load_map.read_scripts, this]

theorem read_scripts_encoded (rd : List Nat → Option lstring_t × List Nat)
    (enc : lstring_t → List Nat) (tail : List Nat) :
    ∀ strs : List lstring_t, (∀ s ∈ strs, ∀ rest, rd (enc s ++ rest) = (some s, rest)) →
      load_map.read_scripts rd strs.length ((strs.map enc).flatten ++ tail) =
        (false, strs.map some) := by
  intro strs
  induction strs with
  | nil => intro _; rfl
  | cons s rest ih =>
    intro h
    have h1 := h s (List.mem_cons_self _ _) ((rest.map enc).flatten ++ tail)
    have h2 := ih (fun t ht => h t (List.mem_cons_of_mem _ ht))
    simp only [List.length_cons, List.map_cons, List.flatten_cons, List.append_assoc,
      load_map.read_scripts, h1, h2]
    rfl

/-- C2. A file that cannot supply the 256-byte header, or whose first four
bytes are not ".rmp", or whose version field is not 1, sends `load_map` to
`on_error` before `scripts` has been assigned. No map is returned; NULL is
returned when the indeterminate value of `scripts` happens to be NULL, and
otherwise the cleanup frees through the uninitialised pointer. -/
theorem C2_load_map_rejects (env : Env) (path : String) (file : List Nat)
    (hopen : env.al_fopen path = some file)
    (hbad : file.length < 256 ∨ file.take 4 ≠ rmp_signature ∨ rmp_version file ≠ 1) :
    load_map env path = load_map.on_error env false ∧
      (∀ m : map_t, load_map env path ≠ .ok (some m)) ∧
      (env.uninitialized_is_null = true → load_map env path = .ok none) ∧
      (env.uninitialized_is_null = false → load_map env path =
        .error (Fault.crash "on_error: scripts is uninitialised and not NULL")) := by
  have h : load_map env path = load_map.on_error env false := by
    unfold load_map
    rw [hopen]
    simp only [rmp_header_size_eq]
    by_cases hlen : (file.take 256).length = 256
    · rw [if_neg (by simpa using hlen)]
      have hs : (file.take 256).take 4 = file.take 4 := by simp [List.take_take]
      have hv : rmp_version (file.take 256) = rmp_version file :=
        read_int16_take file 4 256 (by omega)
      rw [hs, hv]
      rcases hbad with h | h | h
      · simp at hlen; omega
      · rw [if_pos h]
      · by_cases h4 : file.take 4 ≠ rmp_signature
        · rw [if_pos h4]
        · rw [if_neg h4, if_neg h]
    · rw [if_pos hlen]
  rw [h]
  refine ⟨rfl, ?_, ?_, ?_⟩
  · intro m
    unfold load_map.on_error
    split <;> simp
  · intro hn
    simp [load_map.on_error, hn]
  · intro hn
    simp [load_map.on_error, hn]

set_option maxRecDepth 100000 in
theorem C2_witness :
    (garbage_env (List.replicate 256 0)).al_fopen "town.rmp" = some (List.replicate 256 0) ∧
      (List.replicate 256 0).take 4 ≠ rmp_signature ∧
      load_map (garbage_env (List.replicate 256 0)) "town.rmp" =
        .error (Fault.crash "on_error: scripts is uninitialised and not NULL") :=
  ⟨rfl, by decide,
    (C2_load_map_rejects (garbage_env (List.replicate 256 0)) "town.rmp"
      (List.replicate 256 0) rfl (Or.inr (Or.inl (by decide)))).2.2.2 rfl⟩

/-- C3. A file made of a version-1 header with signature ".rmp" and
`num_strings = N`, followed by `N` strings each of which the string reader
reads back (and by anything after them), loads: `load_map` returns a map whose
script table is exactly those `N` strings, in file order. -/
theorem C3_load_map_scripts (env : Env) (path : String) (enc : lstring_t → List Nat)
    (hdr : List Nat) (strs : List lstring_t) (tail : List Nat)
    (hopen : env.al_fopen path = some (hdr ++ ((strs.map enc).flatten ++ tail)))
    (hlen : hdr.length = 256) (hsig : hdr.take 4 = rmp_signature)
    (hver : rmp_version hdr = 1) (hnum : rmp_num_strings hdr = strs.length)
    (hrd : ∀ s ∈ strs, ∀ rest, env.al_fread_lstring (enc s ++ rest) = (some s, rest)) :
    load_map env path = .ok (some { width := 0, height := 0, scripts := strs.map some }) := by
  unfold load_map
  rw [hopen]
  simp only [rmp_header_size_eq]
  have ht : (hdr ++ ((strs.map enc).flatten ++ tail)).take 256 = hdr := List.take_left' hlen
  have hd : (hdr ++ ((strs.map enc).flatten ++ tail)).drop 256 = (strs.map enc).flatten ++ tail :=
    List.drop_left' hlen
  rw [ht, hd, if_neg (by simpa using hlen), if_neg (by simpa using hsig), if_pos hver, hnum,
    if_neg (by simp), Int.toNat_natCast, read_scripts_encoded env.al_fread_lstring enc tail strs hrd]
  rfl

set_option maxRecDepth 100000 in
theorem C3_witness :
    load_map (demo_env al_fread_lstring_u16
        (demo_header 2 ++ (([[7], [1, 2]].map encode_lstring_u16).flatten ++ [])))
      "town.rmp" = .ok (some { width := 0, height := 0, scripts := [some [7], some [1, 2]] }) :=
  C3_load_map_scripts
    (demo_env al_fread_lstring_u16
      (demo_header 2 ++ (([[7], [1, 2]].map encode_lstring_u16).flatten ++ [])))
    "town.rmp" encode_lstring_u16 (demo_header 2) [[7], [1, 2]] [] rfl (by decide) (by decide)
    (by decide) (by decide)
    (by
      intro s hs rest
      simp only [List.mem_cons, List.mem_singleton, List.not_mem_nil, or_false] at hs
      rcases hs with rfl | rfl <;> rfl)

/-- C4. When the file has a version-1 header with signature ".rmp" announcing
`N` strings and the read of string `i` (for any `i < N`) fails, `load_map`
returns NULL, whatever the other reads do: no map with part of the strings is
returned. -/
theorem C4_load_map_string_failure (env : Env) (path : String) (file : List Nat) (i : Nat)
    (hopen : env.al_fopen path = some file)
    (hlen : 256 ≤ file.length) (hsig : file.take 4 = rmp_signature)
    (hver : rmp_version file = 1)
    (hi : (i : Int) < rmp_num_strings file)
    (hfail : (env.al_fread_lstring (stream_after env.al_fread_lstring i (file.drop 256))).1 = none) :
    load_map env path = .ok none := by
  have hs : (file.take 256).take 4 = file.take 4 := by simp [List.take_take]
  have hv : rmp_version (file.take 256) = rmp_version file := read_int16_take file 4 256 (by omega)
  have hn : rmp_num_strings (file.take 256) = rmp_num_strings file :=
    read_int16_take file 17 256 (by omega)
  have hr := read_scripts_failed env.al_fread_lstring (rmp_num_strings file).toNat
    (file.drop 256) i (by omega) hfail
  unfold load_map
  rw [hopen]
  simp only [rmp_header_size_eq]
  rw [if_neg (by simp; omega), hs, hv, hn, if_neg (by simpa using hsig), if_pos hver,
    if_neg (by omega), hr]
  simp [load_map.on_error]

set_option maxRecDepth 100000 in
theorem C4_witness :
    (3 : Int) = rmp_num_strings (demo_header 3 ++ [5, 0, 7]) ∧
      (flaky_reader (stream_after flaky_reader 0 ((demo_header 3 ++ [5, 0, 7]).drop 256))).1 =
        some [5] ∧
      (flaky_reader (stream_after flaky_reader 1 ((demo_header 3 ++ [5, 0, 7]).drop 256))).1 =
        none ∧
      (flaky_reader (stream_after flaky_reader 2 ((demo_header 3 ++ [5, 0, 7]).drop 256))).1 =
        some [7] ∧
      load_map (garbage_env_with flaky_reader (demo_header 3 ++ [5, 0, 7])) "town.rmp" =
        .ok none :=
  ⟨by decide, by decide, by decide, by decide,
    C4_load_map_string_failure (garbage_env_with flaky_reader (demo_header 3 ++ [5, 0, 7]))
      "town.rmp" (demo_header 3 ++ [5, 0, 7]) 1 rfl (by decide) (by decide) (by decide)
      (by decide) (by decide)⟩

theorem res_eq_ok_of_isOk (r : Res Unit) (h : r.isOk = true) : r = Res.ok () r.state := by
  cases r with
  | ok u s => rfl
  | fail e s => simp [Res.isOk] at h

theorem res_eq_ok {α : Type} (r : Res α) (d : α) (h : r.isOk = true) :
    r = Res.ok (r.value d) r.state := by
  cases r with
  | ok a s => rfl
  | fail e s => simp [Res.isOk] at h

/-- C6. Run sets `s_running` to true, `s_exiting` to false and `s_framerate` to
the given rate (and clears the display) before `change_map` and the loop run:
`js_MapEngine` is `change_map`, the loop, and the clearing of `s_running`,
started in the state with these three values. When `change_map` returns and
the loop ends (which it does only on a set exit flag), Run returns 0 with
`s_running` false. -/
theorem C6_run_sets_flags (env : Env) (call : List Cmd → M Unit) (fuel : Nat)
    (filename : String) (framerate : Int) (s : State) (b : Bool) (s1 s2 : State)
    (hchange : change_map env call filename
      { s with s_running := true, s_exiting := false, s_framerate := framerate,
               trace := s.trace ++ [Ev.al_clear_to_color] } = Res.ok b s1)
    (hloop : js_MapEngine.loop env call fuel s1 = Res.ok () s2) :
    js_MapEngine env call fuel filename framerate s =
        (do let _ ← change_map env call filename
            js_MapEngine.loop env call fuel
            modifyS fun t => { t with s_running := false }
            pure 0)
          { s with s_running := true, s_exiting := false, s_framerate := framerate,
                   trace := s.trace ++ [Ev.al_clear_to_color] } ∧
      js_MapEngine env call fuel filename framerate s =
        Res.ok 0 { s2 with s_running := false } ∧
      s2.s_exiting = true := by
  refine ⟨rfl, ?_, loop_exit env call fuel s1 () s2 hloop⟩
  rw [js_MapEngine_run, hchange]
  dsimp only
  rw [hloop]

set_option maxRecDepth 100000 in
theorem C6_witness :
    (js_MapEngine town_env (invoke town_env 1) 2 "town.rmp" 60 exit_idle).isOk = true ∧
      (js_MapEngine town_env (invoke town_env 1) 2 "town.rmp" 60 exit_idle).state.s_running =
        false :=
  have h := C6_run_sets_flags town_env (invoke town_env 1) 2 "town.rmp" 60 exit_idle
    ((change_map town_env (invoke town_env 1) "town.rmp"
      { exit_idle with s_running := true, s_exiting := false, s_framerate := 60,
                       trace := exit_idle.trace ++ [Ev.al_clear_to_color] }).value false)
    (change_map town_env (invoke town_env 1) "town.rmp"
      { exit_idle with s_running := true, s_exiting := false, s_framerate := 60,
                       trace := exit_idle.trace ++ [Ev.al_clear_to_color] }).state
    (js_MapEngine.loop town_env (invoke town_env 1) 2
      (change_map town_env (invoke town_env 1) "town.rmp"
        { exit_idle with s_running := true, s_exiting := false, s_framerate := 60,
                         trace := exit_idle.trace ++ [Ev.al_clear_to_color] }).state).state
    (res_eq_ok _ false (by decide!))
    (res_eq_ok_of_isOk _ (by decide!))
  ⟨by rw [h.2.1]; rfl, by rw [h.2.1]; rfl⟩

/-- C7, the claim fails. An idle engine runs "town.rmp" with an update script
that runs the map engine again (the nested session is ended by its own update
script) and then calls IsMapEngineRunning: the outer Run is still active, it
has yet to draw its first frame, and IsMapEngineRunning returns false. -/
theorem C7_counterexample :
    (js_MapEngine town_env (invoke town_env 3) 2 "town.rmp" 60 nesting_idle).isOk = true ∧
      (js_MapEngine town_env (invoke town_env 3) 2 "town.rmp" 60 nesting_idle).state.trace =
        [Ev.al_clear_to_color,
         Ev.duk_call [],
         Ev.begin_frame 60,
         Ev.update_persons,
         Ev.duk_call nesting_script,
         Ev.api (Cmd.SetUpdateScript [1]),
         Ev.api_return (Cmd.SetUpdateScript [1]) Val.undefined,
         Ev.api (Cmd.MapEngine "town.rmp" 60),
         Ev.al_clear_to_color,
         Ev.duk_call [],
         Ev.begin_frame 60,
         Ev.update_persons,
         Ev.duk_call [Cmd.ExitMapEngine],
         Ev.api Cmd.ExitMapEngine,
         Ev.api_return Cmd.ExitMapEngine Val.undefined,
         Ev.al_draw_text "town.rmp",
         Ev.render_persons,
         Ev.api_return (Cmd.MapEngine "town.rmp" 60) Val.undefined,
         Ev.api Cmd.IsMapEngineRunning,
         Ev.api_return Cmd.IsMapEngineRunning (Val.boolean false),
         Ev.al_draw_text "town.rmp",
         Ev.render_persons] := by
  set_option maxRecDepth 100000 in
  decide!

theorem js_IsMapEngineRunning_run (s : State) :
    js_IsMapEngineRunning s =
      Res.ok 1 { s with vstack := Val.boolean s.s_running :: s.vstack } := rfl

/-- C7, amended. IsMapEngineRunning returns the value of the one flag
`s_running`. Every Run that returns leaves the flag false, a nested one too:
after a script's call of MapEngine has returned, `s_running` is false and a
call of IsMapEngineRunning that follows returns false to the script, although
the Run the script belongs to is still active. -/
theorem C7_running_flag_is_shared (env : Env) (n : Nat) (filename : String) (framerate : Int)
    (s s' : State)
    (hnested : call_api env (invoke env n) n (Cmd.MapEngine filename framerate) s
      = Res.ok () s') :
    s'.s_running = false ∧
      call_api env (invoke env n) n Cmd.IsMapEngineRunning s' =
        Res.ok () { s' with trace := s'.trace ++ [Ev.api Cmd.IsMapEngineRunning,
          Ev.api_return Cmd.IsMapEngineRunning (Val.boolean false)] } ∧
      (∀ t : State, js_IsMapEngineRunning t =
        Res.ok 1 { t with vstack := Val.boolean t.s_running :: t.vstack }) := by
  have hrun : s'.s_running = false := by
    rw [call_api_run] at hnested
    split at hnested
    · cases hnested
    · rename_i nrets s1 hr
      cases hnested
      exact (js_MapEngine_exit env _ n filename framerate _ nrets s1 hr).2
  refine ⟨hrun, ?_, js_IsMapEngineRunning_run⟩
  have hf : api_func env (invoke env n) n Cmd.IsMapEngineRunning = js_IsMapEngineRunning := rfl
  rw [call_api_run, hf, js_IsMapEngineRunning_run]
  simp [hrun]

set_option maxRecDepth 100000 in
theorem C7_witness :
    exit_session.s_running = true ∧
      (call_api town_env (invoke town_env 2) 2 (Cmd.MapEngine "town.rmp" 60)
        exit_session).isOk = true ∧
      (call_api town_env (invoke town_env 2) 2 (Cmd.MapEngine "town.rmp" 60)
        exit_session).state.s_running = false :=
  ⟨rfl, by decide!,
    (C7_running_flag_is_shared town_env 2 "town.rmp" 60 exit_session
      (call_api town_env (invoke town_env 2) 2 (Cmd.MapEngine "town.rmp" 60) exit_session).state
      (res_eq_ok_of_isOk _ (by decide!))).1⟩

theorem js_AttachCamera_run (env : Env) (name : String) (s : State) :
    js_AttachCamera env name s =
      match env.find_person s.trace name with
      | some person => Res.ok 0 { s with s_camera_person := some person }
      | none => Res.fail (Fault.error ErrCode.DUK_ERR_REFERENCE_ERROR
          ("AttachCamera(): Person \x27" ++ name ++ "\x27 doesn\x27t exist")) s := by
  rw [js_AttachCamera, bind_run, getS_run]
  dsimp only
  cases env.find_person s.trace name <;> rfl

theorem js_AttachInput_run (env : Env) (name : String) (s : State) :
    js_AttachInput env name s =
      match env.find_person s.trace name with
      | some person => Res.ok 0 { s with s_input_person := some person }
      | none => Res.fail (Fault.error ErrCode.DUK_ERR_REFERENCE_ERROR
          ("AttachInput(): Person \x27" ++ name ++ "\x27 doesn\x27t exist")) s := by
  rw [js_AttachInput, bind_run, getS_run]
  dsimp only
  cases env.find_person s.trace name <;> rfl

/-- C9. For a name `find_person` does not resolve, AttachCamera and AttachInput
raise a ReferenceError and the state is the one they were called in: camera
and input attachment are unchanged. For a name that resolves to person `p`,
AttachCamera returns with only `s_camera_person` changed, to `p`, and
AttachInput returns with only `s_input_person` changed, to `p`. -/
theorem C9_attach (env : Env) (name : String) (s : State) :
    (env.find_person s.trace name = none →
      js_AttachCamera env name s =
        Res.fail (Fault.error ErrCode.DUK_ERR_REFERENCE_ERROR
          ("AttachCamera(): Person \x27" ++ name ++ "\x27 doesn\x27t exist")) s ∧
      js_AttachInput env name s =
        Res.fail (Fault.error ErrCode.DUK_ERR_REFERENCE_ERROR
          ("AttachInput(): Person \x27" ++ name ++ "\x27 doesn\x27t exist")) s) ∧
    (∀ p : person_t, env.find_person s.trace name = some p →
      js_AttachCamera env name s = Res.ok 0 { s with s_camera_person := some p } ∧
      js_AttachInput env name s = Res.ok 0 { s with s_input_person := some p }) := by
  refine ⟨fun h => ?_, fun p h => ?_⟩
  · rw [js_AttachCamera_run, js_AttachInput_run, h]
    exact ⟨rfl, rfl⟩
  · rw [js_AttachCamera_run, js_AttachInput_run, h]
    exact ⟨rfl, rfl⟩

theorem C9_witness :
    (js_AttachCamera town_env "ghost" exit_session).state.s_camera_person = none ∧
      (js_AttachInput town_env "ghost" exit_session).fault =
        some (Fault.error ErrCode.DUK_ERR_REFERENCE_ERROR
          "AttachInput(): Person \x27ghost\x27 doesn\x27t exist") ∧
      (js_AttachCamera town_env "hero" exit_session).state.s_camera_person = some 1 ∧
      (js_AttachCamera town_env "hero" exit_session).state.s_input_person = none :=
  have h := C9_attach town_env "hero" exit_session
  have g := C9_attach town_env "ghost" exit_session
  ⟨by rw [(g.1 (by decide)).1]; rfl, by rw [(g.1 (by decide)).2]; decide,
    by rw [(h.2 1 (by decide)).1]; rfl, by rw [(h.2 1 (by decide)).1]; rfl⟩

theorem check_input_run (env : Env) (s : State) :
    update_map_engine.check_input env s =
      match s.s_input_person with
      | none => Res.ok () s
      | some p => Res.ok ()
          { s with trace := s.trace ++ Ev.al_get_keyboard_state ::
              input_commands (env.al_get_keyboard_state s.trace) p } := by
  obtain ⟨cp, cx, cy, ex, fr, ip, mp, fn, rn, st, vs, tr⟩ := s
  rw [update_map_engine.check_input, bind_run, getS_run]
  cases ip with
  | none => rfl
  | some p =>
    simp only [bind_run, getS_run, logEv_run, input_commands, dominant_direction, input_priority,
      List.find?]
    cases h1 : env.al_get_keyboard_state tr Key.ALLEGRO_KEY_UP
    · cases h2 : env.al_get_keyboard_state tr Key.ALLEGRO_KEY_RIGHT
      · cases h3 : env.al_get_keyboard_state tr Key.ALLEGRO_KEY_DOWN
        · cases h4 : env.al_get_keyboard_state tr Key.ALLEGRO_KEY_LEFT
          · simp [h1, h2, h3, h4, pure_run]
          · simp [h1, h2, h3, h4, bind_run, logEv_run, face_command, move_command]
        · simp [h1, h2, h3, bind_run, logEv_run, face_command, move_command]
      · simp [h1, h2, bind_run, logEv_run, face_command, move_command]
    · simp [h1, bind_run, logEv_run, face_command, move_command]

/-- C10. One update step enqueues, after advancing the persons, exactly the
commands of the spec to the attached input person: Face d then Move d for the
first key held in the order Up, Right, Down, Left, nothing when none of the
four is held, and nothing at all (the keyboard is not even read) when no input
person is attached; the camera step and the update script start from the state
that holds just these calls. With Up held (Left held or not) the commands are
Face North, Move North. -/
theorem C10_input_commands (env : Env) (call : List Cmd → M Unit) (s : State) :
    update_map_engine env call s =
        (do update_map_engine.update_camera env
            update_map_engine.run_script call)
          (match s.s_input_person with
           | none => { s with trace := s.trace ++ [Ev.update_persons] }
           | some p =>
             { s with trace := s.trace ++ [Ev.update_persons] ++ Ev.al_get_keyboard_state ::
                 input_commands (env.al_get_keyboard_state (s.trace ++ [Ev.update_persons])) p }) ∧
      (∀ (kb_state : Key → Bool) (p : person_t),
        input_commands kb_state p =
          if kb_state Key.ALLEGRO_KEY_UP = true then
            [Ev.command_person p person_cmd.COMMAND_FACE_NORTH,
             Ev.command_person p person_cmd.COMMAND_MOVE_NORTH]
          else if kb_state Key.ALLEGRO_KEY_RIGHT = true then
            [Ev.command_person p person_cmd.COMMAND_FACE_EAST,
             Ev.command_person p person_cmd.COMMAND_MOVE_EAST]
          else if kb_state Key.ALLEGRO_KEY_DOWN = true then
            [Ev.command_person p person_cmd.COMMAND_FACE_SOUTH,
             Ev.command_person p person_cmd.COMMAND_MOVE_SOUTH]
          else if kb_state Key.ALLEGRO_KEY_LEFT = true then
            [Ev.command_person p person_cmd.COMMAND_FACE_WEST,
             Ev.command_person p person_cmd.COMMAND_MOVE_WEST]
          else []) ∧
      (∀ (kb_state : Key → Bool) (p : person_t),
        kb_state Key.ALLEGRO_KEY_UP = true → kb_state Key.ALLEGRO_KEY_LEFT = true →
        input_commands kb_state p =
          [Ev.command_person p person_cmd.COMMAND_FACE_NORTH,
           Ev.command_person p person_cmd.COMMAND_MOVE_NORTH]) := by
  refine ⟨?_, ?_, ?_⟩
  · rw [update_map_engine_run, bind_run, check_input_run]
    obtain ⟨cp, cx, cy, ex, fr, ip, mp, fn, rn, st, vs, tr⟩ := s
    cases ip <;> rfl
  · intro kb_state p
    simp only [input_commands, dominant_direction, input_priority, List.find?]
    cases kb_state Key.ALLEGRO_KEY_UP <;> cases kb_state Key.ALLEGRO_KEY_RIGHT <;>
      cases kb_state Key.ALLEGRO_KEY_DOWN <;> cases kb_state Key.ALLEGRO_KEY_LEFT <;> rfl
  · intro kb_state p hup _
    simp [input_commands, dominant_direction, input_priority, List.find?, hup, face_command,
      move_command]

/-! ## Blocks of change_map, render_map_engine and update_map_engine -/

theorem M_bind_assoc {α β γ : Type} (m : M α) (f : α → M β) (g : β → M γ) :
    (m >>= f) >>= g = m >>= fun a => f a >>= g := by
  funext s
  simp only [bind_run]
  cases m s <;> rfl

theorem M_pure_bind {α β : Type} (a : α) (f : α → M β) : pure a >>= f = f a := rfl

theorem M_ite_bind {α β : Type} (c : Prop) [Decidable c] (x y : M α) (g : α → M β) :
    (if c then x else y) >>= g = if c then x >>= g else y >>= g := by
  split <;> rfl

theorem change_map_loaded (env : Env) (call : List Cmd → M Unit) (filename : String)
    (s : State) (m : map_t) (hload : load_map env (env.get_asset_path filename) = .ok (some m)) :
    change_map env call filename s =
      (do change_map.run_default_entry call
          change_map.run_entry_script env call)
        { s with s_map := some m, s_map_filename := some filename } := by
  unfold change_map
  simp only [hload, M_pure_bind]
  rw [bind_run, modifyS_run]
  dsimp only
  rw [bind_run, modifyS_run]
  dsimp only
  rw [bind_run, modifyS_run]
  dsimp only
  unfold change_map.run_default_entry change_map.run_entry_script
  simp only [M_bind_assoc, M_ite_bind, M_pure_bind]

theorem duk_is_callable_function (s : State) (f : List Cmd) (rest : List Val)
    (h : s.vstack = Val.function f :: rest) : duk_is_callable s = Res.ok true s := by
  unfold duk_is_callable
  rw [h]

theorem duk_is_callable_other (s : State) (h : ∀ f rest, s.vstack ≠ Val.function f :: rest) :
    duk_is_callable s = Res.ok false s := by
  unfold duk_is_callable
  split
  · rename_i f rest hv
    exact absurd hv (h f rest)
  · rfl

theorem run_default_entry_callable (call : List Cmd → M Unit) (s : State) (f : List Cmd)
    (h : s.stash "map_def_enter_script" = Val.function f) :
    change_map.run_default_entry call s =
      (do call f
          duk_push Val.undefined
          duk_pop
          duk_pop)
        { s with vstack := Val.global_stash :: s.vstack, trace := s.trace ++ [Ev.duk_call f] } := by
  obtain ⟨cp, cx, cy, ex, fr, ip, mp, fn, rn, st, vs, tr⟩ := s
  simp only at h
  simp only [change_map.run_default_entry, duk_push_global_stash, duk_push, bind_run, modifyS_run,
    duk_get_prop_string]
  rw [duk_is_callable_function _ f (Val.global_stash :: vs) (by simp only [h])]
  simp only [duk_call, h, bind_run, logEv_run, if_true]
  cases call f _ <;> rfl

theorem run_default_entry_absent (call : List Cmd → M Unit) (s : State)
    (h : ∀ f, s.stash "map_def_enter_script" ≠ Val.function f) :
    change_map.run_default_entry call s =
      Res.ok () { s with vstack := Val.global_stash :: s.vstack } := by
  obtain ⟨cp, cx, cy, ex, fr, ip, mp, fn, rn, st, vs, tr⟩ := s
  simp only at h
  simp only [change_map.run_default_entry, duk_push_global_stash, duk_push, bind_run, modifyS_run,
    duk_get_prop_string]
  rw [duk_is_callable_other _ (by
    intro f rest hv
    simp only [List.cons.injEq] at hv
    exact h f hv.1)]
  simp [bind_run, pure_run, duk_pop]

theorem run_entry_script_present (env : Env) (call : List Cmd → M Unit) (t : State)
    (cur : map_t) (src : lstring_t) (g : List Cmd)
    (hmap : t.s_map = some cur) (hsrc : cur.scripts.get? 3 = some (some src))
    (hg : env.duk_compile src = some g) :
    change_map.run_entry_script env call t =
      (do call g
          duk_push Val.undefined
          duk_pop
          pure true)
        { t with trace := t.trace ++ [Ev.duk_call g] } := by
  obtain ⟨cp, cx, cy, ex, fr, ip, mp, fn, rn, st, vs, tr⟩ := t
  simp only at hmap
  subst hmap
  simp only [change_map.run_entry_script, bind_run, getS_run, hsrc, duk_compile_lstring, hg,
    duk_push, modifyS_run, duk_call, logEv_run]
  cases call g _ <;> rfl

theorem run_entry_script_outside (env : Env) (call : List Cmd → M Unit) (t : State)
    (cur : map_t) (hmap : t.s_map = some cur) (hsrc : cur.scripts.get? 3 = none) :
    change_map.run_entry_script env call t =
      Res.fail (Fault.crash "s_map->scripts[3] is outside the array") t := by
  obtain ⟨cp, cx, cy, ex, fr, ip, mp, fn, rn, st, vs, tr⟩ := t
  simp only at hmap
  subst hmap
  simp only [change_map.run_entry_script, bind_run, getS_run, hsrc]
  rfl

theorem run_entry_script_uncompiled (env : Env) (call : List Cmd → M Unit) (t : State)
    (cur : map_t) (src : lstring_t)
    (hmap : t.s_map = some cur) (hsrc : cur.scripts.get? 3 = some (some src))
    (hg : env.duk_compile src = none) :
    change_map.run_entry_script env call t =
      Res.fail (Fault.error ErrCode.DUK_ERR_SYNTAX_ERROR "parse error") t := by
  obtain ⟨cp, cx, cy, ex, fr, ip, mp, fn, rn, st, vs, tr⟩ := t
  simp only at hmap
  subst hmap
  simp only [change_map.run_entry_script, bind_run, getS_run, hsrc, duk_compile_lstring, hg]
  rfl

theorem update_run_script_callable (call : List Cmd → M Unit) (s : State) (f : List Cmd)
    (h : s.stash "update_script" = Val.function f) :
    update_map_engine.run_script call s =
      (do call f
          duk_push Val.undefined
          duk_pop_2)
        { s with vstack := Val.global_stash :: s.vstack, trace := s.trace ++ [Ev.duk_call f] } := by
  obtain ⟨cp, cx, cy, ex, fr, ip, mp, fn, rn, st, vs, tr⟩ := s
  simp only at h
  simp only [update_map_engine.run_script, duk_push_global_stash, duk_push, bind_run, modifyS_run,
    duk_get_prop_string]
  rw [duk_is_callable_function _ f (Val.global_stash :: vs) (by simp only [h])]
  simp only [duk_call, h, bind_run, logEv_run, if_true]
  cases call f _ <;> rfl

theorem update_run_script_absent (call : List Cmd → M Unit) (s : State)
    (h : ∀ f, s.stash "update_script" ≠ Val.function f) :
    update_map_engine.run_script call s = Res.ok () s := by
  obtain ⟨cp, cx, cy, ex, fr, ip, mp, fn, rn, st, vs, tr⟩ := s
  simp only at h
  simp only [update_map_engine.run_script, duk_push_global_stash, duk_push, bind_run, modifyS_run,
    duk_get_prop_string]
  rw [duk_is_callable_other _ (by
    intro f rest hv
    simp only [List.cons.injEq] at hv
    exact h f hv.1)]
  simp [bind_run, pure_run, duk_pop, duk_pop_2]

theorem render_run_script_callable (call : List Cmd → M Unit) (s : State) (f : List Cmd)
    (h : s.stash "render_script" = Val.function f) :
    render_map_engine.run_script call s =
      (do call f
          duk_push Val.undefined
          duk_pop_2)
        { s with vstack := Val.global_stash :: s.vstack, trace := s.trace ++ [Ev.duk_call f] } := by
  obtain ⟨cp, cx, cy, ex, fr, ip, mp, fn, rn, st, vs, tr⟩ := s
  simp only at h
  simp only [render_map_engine.run_script, duk_push_global_stash, duk_push, bind_run, modifyS_run,
    duk_get_prop_string]
  rw [duk_is_callable_function _ f (Val.global_stash :: vs) (by simp only [h])]
  simp only [duk_call, h, bind_run, logEv_run, if_true]
  cases call f _ <;> rfl

theorem render_run_script_absent (call : List Cmd → M Unit) (s : State)
    (h : ∀ f, s.stash "render_script" ≠ Val.function f) :
    render_map_engine.run_script call s = Res.ok () s := by
  obtain ⟨cp, cx, cy, ex, fr, ip, mp, fn, rn, st, vs, tr⟩ := s
  simp only at h
  simp only [render_map_engine.run_script, duk_push_global_stash, duk_push, bind_run, modifyS_run,
    duk_get_prop_string]
  rw [duk_is_callable_other _ (by
    intro f rest hv
    simp only [List.cons.injEq] at hv
    exact h f hv.1)]
  simp [bind_run, pure_run, duk_pop, duk_pop_2]

theorem render_map_engine_blocks (call : List Cmd → M Unit) (s : State) (text : String)
    (h : s.s_map_filename = some text) :
    render_map_engine call s =
      (do logEv Ev.render_persons
          render_map_engine.run_script call)
        { s with trace := s.trace ++ [Ev.al_draw_text text] } := by
  rw [render_map_engine_some call s text h]
  rfl

theorem update_map_engine_blocks (env : Env) (call : List Cmd → M Unit) :
    update_map_engine env call =
      (do logEv Ev.update_persons
          update_map_engine.check_input env
          update_map_engine.update_camera env
          update_map_engine.run_script call) := rfl

theorem town_loads :
    load_map town_env (town_env.get_asset_path "town.rmp") =
      .ok (some { width := 0, height := 0, scripts := [some [], some [], some [], some [7]] }) := by
  set_option maxRecDepth 100000 in
  rfl

theorem short_loads :
    load_map short_env (short_env.get_asset_path "town.rmp") =
      .ok (some { width := 0, height := 0, scripts := [some [], some [], some []] }) := by
  set_option maxRecDepth 100000 in
  rfl

theorem missing_fails :
    load_map town_env (town_env.get_asset_path "missing.rmp") = .ok none := by
  rfl

theorem change_map_failed (env : Env) (call : List Cmd → M Unit) (filename : String)
    (s : State) (hload : load_map env (env.get_asset_path filename) = .ok none) :
    change_map env call filename s = Res.ok false { s with s_map_filename := none } := by
  unfold change_map
  simp only [hload, M_pure_bind]
  rfl

theorem run_entry_script_null (env : Env) (call : List Cmd → M Unit) (t : State)
    (cur : map_t) (hmap : t.s_map = some cur) (hsrc : cur.scripts.get? 3 = some none) :
    change_map.run_entry_script env call t =
      Res.fail (Fault.crash "s_map->scripts[3] is NULL") t := by
  obtain ⟨cp, cx, cy, ex, fr, ip, mp, fn, rn, st, vs, tr⟩ := t
  simp only at hmap
  subst hmap
  simp only [change_map.run_entry_script, bind_run, getS_run, hsrc]
  rfl

theorem run_entry_script_nomap (env : Env) (call : List Cmd → M Unit) (t : State)
    (hmap : t.s_map = none) :
    change_map.run_entry_script env call t = Res.fail (Fault.crash "s_map is NULL") t := by
  obtain ⟨cp, cx, cy, ex, fr, ip, mp, fn, rn, st, vs, tr⟩ := t
  simp only at hmap
  subst hmap
  rfl

theorem run_entry_script_returns (env : Env) (call : List Cmd → M Unit) (t : State)
    (b : Bool) (s' : State) (h : change_map.run_entry_script env call t = Res.ok b s') :
    b = true ∧ ∃ (cur : map_t) (src : lstring_t) (g : List Cmd),
      t.s_map = some cur ∧ cur.scripts.get? 3 = some (some src) ∧ env.duk_compile src = some g ∧
      (do call g
          duk_push Val.undefined
          duk_pop
          pure true) { t with trace := t.trace ++ [Ev.duk_call g] } = Res.ok true s' := by
  rcases Option.eq_none_or_eq_some t.s_map with hm | ⟨cur, hm⟩
  · rw [run_entry_script_nomap env call t hm] at h
    cases h
  · rcases Option.eq_none_or_eq_some (cur.scripts.get? 3) with hs | ⟨entry, hs⟩
    · rw [run_entry_script_outside env call t cur hm hs] at h
      cases h
    · cases entry with
      | none =>
        rw [run_entry_script_null env call t cur hm hs] at h
        cases h
      | some src =>
        rcases Option.eq_none_or_eq_some (env.duk_compile src) with hg | ⟨g, hg⟩
        · rw [run_entry_script_uncompiled env call t cur src hm hs hg] at h
          cases h
        · rw [run_entry_script_present env call t cur src g hm hs hg] at h
          have hb : b = true := by
            simp only [bind_run] at h
            split at h
            · split at h
              · split at h
                · simp only [pure_run, Res.ok.injEq] at h
                  exact h.1.symm
                · cases h
              · cases h
            · cases h
          subst hb
          exact ⟨rfl, cur, src, g, hm, hs, hg, h⟩

/-- C12. The map entry step reads entry 3 of the script table without looking
at the number of strings that were loaded. For a loaded map with fewer than
four strings, `change_map` (here with no default entry script set) does not
return: it reads `s_map->scripts[3]` outside the array. -/
theorem C12_entry_script_unchecked (env : Env) (call : List Cmd → M Unit) (filename : String)
    (s : State) (m : map_t)
    (hload : load_map env (env.get_asset_path filename) = .ok (some m))
    (hlen : m.scripts.length < 4)
    (hslot : ∀ f, s.stash "map_def_enter_script" ≠ Val.function f) :
    change_map env call filename s =
      Res.fail (Fault.crash "s_map->scripts[3] is outside the array")
        { s with s_map := some m, s_map_filename := some filename,
                 vstack := Val.global_stash :: s.vstack } := by
  rw [change_map_loaded env call filename s m hload, bind_run,
    run_default_entry_absent call _ (by exact hslot)]
  dsimp only
  rw [run_entry_script_outside env call _ m rfl]
  rw [List.get?_eq_none]
  omega

set_option maxRecDepth 100000 in
theorem C12_witness :
    load_map short_env (short_env.get_asset_path "town.rmp") =
        .ok (some { width := 0, height := 0, scripts := [some [], some [], some []] }) ∧
      (change_map short_env (invoke short_env 2) "town.rmp" State.init).fault =
        some (Fault.crash "s_map->scripts[3] is outside the array") :=
  ⟨short_loads, by
    rw [C12_entry_script_unchecked short_env (invoke short_env 2) "town.rmp" State.init
      { width := 0, height := 0, scripts := [some [], some [], some []] } short_loads
      (by decide) (by intro f h; cases h)]
    rfl⟩

/-- C13, the claim fails. In a running session on "town.rmp" a change to a map
file that cannot be opened returns false and leaves no current file name, but
the map that was current before the call is still the current map. -/
theorem C13_counterexample :
    exit_session.s_map =
        some { width := 0, height := 0, scripts := [some [], some [], some [], some [7]] } ∧
      (change_map town_env (invoke town_env 2) "missing.rmp" exit_session).value true = false ∧
      (change_map town_env (invoke town_env 2) "missing.rmp" exit_session).state.s_map_filename =
        none ∧
      (change_map town_env (invoke town_env 2) "missing.rmp" exit_session).state.s_map =
        some { width := 0, height := 0, scripts := [some [], some [], some [], some [7]] } := by
  set_option maxRecDepth 100000 in
  decide!

/-- C13, amended. When `load_map` returns NULL, `change_map` returns false,
invokes no script and changes nothing but `s_map_filename`, which it leaves
NULL: `s_map` keeps the map that was current before the call (none if there
was none). -/
theorem C13_failed_change_keeps_map (env : Env) (call : List Cmd → M Unit) (filename : String)
    (s : State) (hload : load_map env (env.get_asset_path filename) = .ok none) :
    change_map env call filename s = Res.ok false { s with s_map_filename := none } ∧
      (change_map env call filename s).state.s_map = s.s_map ∧
      (change_map env call filename s).state.s_map_filename = none ∧
      (change_map env call filename s).state.trace = s.trace := by
  rw [change_map_failed env call filename s hload]
  exact ⟨rfl, rfl, rfl, rfl⟩

theorem C13_witness :
    (change_map town_env (invoke town_env 2) "missing.rmp" exit_session).state.s_map =
      exit_session.s_map :=
  (C13_failed_change_keeps_map town_env (invoke town_env 2) "missing.rmp" exit_session
    missing_fails).2.1

theorem update_camera_null (env : Env) (s : State) (p : person_t)
    (hcam : s.s_camera_person = some p) (hmap : s.s_map = none) :
    update_map_engine.update_camera env s = Res.fail (Fault.crash "s_map is NULL") s := by
  obtain ⟨cp, cx, cy, ex, fr, ip, mp, fn, rn, st, vs, tr⟩ := s
  simp only at hcam hmap
  subst hcam hmap
  rfl

/-- C14. After a map change that failed there is no file name, and no map
unless one was current before. The render phase then hands the NULL
`s_map_filename` to `al_draw_text`, and with a camera person attached and no
map the update phase reads `s_map->width` through NULL: neither phase
completes. -/
theorem C14_failed_change_crashes (env : Env) (call : List Cmd → M Unit) (filename : String)
    (s : State) (hload : load_map env (env.get_asset_path filename) = .ok none) :
    (change_map env call filename s).state.s_map_filename = none ∧
      (∀ t : State, t.s_map_filename = none →
        render_map_engine call t =
          Res.fail (Fault.crash "al_draw_text: s_map_filename is NULL") t) ∧
      (∀ (t : State) (p : person_t), t.s_camera_person = some p → t.s_map = none →
        (update_map_engine env call t).fault = some (Fault.crash "s_map is NULL")) := by
  refine ⟨?_, fun t h => render_map_engine_none call t h, ?_⟩
  · rw [change_map_failed env call filename s hload]
    rfl
  · intro t p hcam hmap
    rw [update_map_engine_run, bind_run, check_input_run]
    cases hip : t.s_input_person with
    | none =>
      dsimp only
      rw [bind_run, update_camera_null env _ p (by exact hcam) (by exact hmap)]
      rfl
    | some q =>
      dsimp only
      rw [bind_run, update_camera_null env _ p (by exact hcam) (by exact hmap)]
      rfl

set_option maxRecDepth 100000 in
theorem C14_witness :
    (js_MapEngine town_env (invoke town_env 2) 2 "missing.rmp" 60 State.init).fault =
        some (Fault.crash "al_draw_text: s_map_filename is NULL") ∧
      (js_MapEngine town_env (invoke town_env 2) 2 "missing.rmp" 60 State.init).state.trace =
        [Ev.al_clear_to_color, Ev.begin_frame 60, Ev.update_persons] ∧
      (js_MapEngine town_env (invoke town_env 2) 2 "missing.rmp" 60 camera_idle).fault =
        some (Fault.crash "s_map is NULL") ∧
      (change_map town_env (invoke town_env 2) "missing.rmp" State.init).state.s_map_filename =
        none :=
  ⟨by decide!, by decide!, by decide!,
    (C14_failed_change_crashes town_env (invoke town_env 2) "missing.rmp" State.init
      missing_fails).1⟩

theorem set_script_run (env : Env) (name : String) (key : String) (src : lstring_t) (s : State) :
    (do duk_push_global_stash
        duk_push (Val.string name)
        duk_compile_lstring_filename env src
        duk_put_prop_string key
        duk_pop
        pure (0 : Int)) s =
      match env.duk_compile src with
      | some g => Res.ok 0
          { s with stash := fun k => if k = key then Val.function g else s.stash k }
      | none => Res.fail (Fault.error ErrCode.DUK_ERR_SYNTAX_ERROR "parse error")
          { s with vstack := Val.global_stash :: s.vstack } := by
  obtain ⟨cp, cx, cy, ex, fr, ip, mp, fn, rn, st, vs, tr⟩ := s
  simp only [duk_push_global_stash, duk_push, bind_run, modifyS_run,
    duk_compile_lstring_filename, duk_pop, duk_compile_lstring]
  cases env.duk_compile src <;> rfl

theorem js_SetUpdateScript_run (env : Env) (src : lstring_t) (s : State) :
    js_SetUpdateScript env src s =
      match env.duk_compile src with
      | some g => Res.ok 0
          { s with stash := fun k => if k = "update_script" then Val.function g else s.stash k }
      | none => Res.fail (Fault.error ErrCode.DUK_ERR_SYNTAX_ERROR "parse error")
          { s with vstack := Val.global_stash :: s.vstack } :=
  set_script_run env "[updatescript]" "update_script" src s

theorem js_SetRenderScript_run (env : Env) (src : lstring_t) (s : State) :
    js_SetRenderScript env src s =
      match env.duk_compile src with
      | some g => Res.ok 0
          { s with stash := fun k => if k = "render_script" then Val.function g else s.stash k }
      | none => Res.fail (Fault.error ErrCode.DUK_ERR_SYNTAX_ERROR "parse error")
          { s with vstack := Val.global_stash :: s.vstack } :=
  set_script_run env "[renderscript]" "render_script" src s

/-- C18. At each of the three dispatch points the slot is tested with
`duk_is_callable`: when it holds no callable nothing is invoked and the
dispatch returns without an error (in `render_map_engine` and
`update_map_engine` with the state it found), and when it holds a callable `f`
the dispatch is one invocation of `f` followed by the removal of its result.
The dispatch points are the default entry block of `change_map`, the script
block of `render_map_engine` after the drawing calls, and the script block
that ends `update_map_engine`. -/
theorem C18_dispatch_points (env : Env) (call : List Cmd → M Unit) (s : State) :
    ((∀ f, s.stash "map_def_enter_script" ≠ Val.function f) →
      change_map.run_default_entry call s =
        Res.ok () { s with vstack := Val.global_stash :: s.vstack }) ∧
    (∀ f, s.stash "map_def_enter_script" = Val.function f →
      change_map.run_default_entry call s =
        (do call f
            duk_push Val.undefined
            duk_pop
            duk_pop)
          { s with vstack := Val.global_stash :: s.vstack,
                   trace := s.trace ++ [Ev.duk_call f] }) ∧
    ((∀ f, s.stash "render_script" ≠ Val.function f) →
      render_map_engine.run_script call s = Res.ok () s) ∧
    (∀ f, s.stash "render_script" = Val.function f →
      render_map_engine.run_script call s =
        (do call f
            duk_push Val.undefined
            duk_pop_2)
          { s with vstack := Val.global_stash :: s.vstack,
                   trace := s.trace ++ [Ev.duk_call f] }) ∧
    ((∀ f, s.stash "update_script" ≠ Val.function f) →
      update_map_engine.run_script call s = Res.ok () s) ∧
    (∀ f, s.stash "update_script" = Val.function f →
      update_map_engine.run_script call s =
        (do call f
            duk_push Val.undefined
            duk_pop_2)
          { s with vstack := Val.global_stash :: s.vstack,
                   trace := s.trace ++ [Ev.duk_call f] }) ∧
    (∀ (filename : String) (m : map_t),
      load_map env (env.get_asset_path filename) = .ok (some m) →
      change_map env call filename s =
        (do change_map.run_default_entry call
            change_map.run_entry_script env call)
          { s with s_map := some m, s_map_filename := some filename }) ∧
    (∀ text : String, s.s_map_filename = some text →
      render_map_engine call s =
        (do logEv Ev.render_persons
            render_map_engine.run_script call)
          { s with trace := s.trace ++ [Ev.al_draw_text text] }) ∧
    update_map_engine env call =
      (do logEv Ev.update_persons
          update_map_engine.check_input env
          update_map_engine.update_camera env
          update_map_engine.run_script call) :=
  ⟨run_default_entry_absent call s, fun f h => run_default_entry_callable call s f h,
    render_run_script_absent call s, fun f h => render_run_script_callable call s f h,
    update_run_script_absent call s, fun f h => update_run_script_callable call s f h,
    fun filename m h => change_map_loaded env call filename s m h,
    fun text h => render_map_engine_blocks call s text h,
    update_map_engine_blocks env call⟩

/-- C19, the claim fails. In a running session on a map that has a leave
script of its own, with the default leave script and the four directional
leave scripts all set, a change to "town.rmp" succeeds and the only script
invoked is the (empty) enter script of the new map: no leave script runs. -/
theorem C19_counterexample :
    leave_session.stash "map_def_leave_script" = Val.function [Cmd.IsMapEngineRunning] ∧
      (change_map town_env (invoke town_env 2) "town.rmp" leave_session).value false = true ∧
      (change_map town_env (invoke town_env 2) "town.rmp" leave_session).state.trace =
        [Ev.duk_call []] := by
  set_option maxRecDepth 100000 in
  decide!

/-- C19, amended. `change_map` runs no leave script. When the new map loads,
a call made while a map is current does exactly what the call does when no
map is current: the current map and file name are replaced and the
enter-script sequence of the initial load runs. -/
theorem C19_no_leave_script (env : Env) (call : List Cmd → M Unit) (filename : String)
    (s : State) (m : map_t)
    (hload : load_map env (env.get_asset_path filename) = .ok (some m)) :
    change_map env call filename s =
        change_map env call filename { s with s_map := none, s_map_filename := none } ∧
      change_map env call filename s =
        (do change_map.run_default_entry call
            change_map.run_entry_script env call)
          { s with s_map := some m, s_map_filename := some filename } := by
  refine ⟨?_, change_map_loaded env call filename s m hload⟩
  rw [change_map_loaded env call filename s m hload,
    change_map_loaded env call filename _ m hload]

set_option maxRecDepth 100000 in
theorem C19_witness :
    (change_map town_env (invoke town_env 2) "town.rmp" leave_session).state.trace =
      (change_map town_env (invoke town_env 2) "town.rmp"
        { leave_session with s_map := none, s_map_filename := none }).state.trace :=
  congrArg (fun r => r.state.trace)
    (C19_no_leave_script town_env (invoke town_env 2) "town.rmp" leave_session
      { width := 0, height := 0, scripts := [some [], some [], some [], some [7]] }
      town_loads).1

theorem read_int16_eq (bytes : List Nat) (off : Nat) :
    read_int16 bytes off =
      if bytes.getD off 0 % 256 + 256 * (bytes.getD (off + 1) 0 % 256) < 32768 then
        ((bytes.getD off 0 % 256 + 256 * (bytes.getD (off + 1) 0 % 256) : Nat) : Int)
      else ((bytes.getD off 0 % 256 + 256 * (bytes.getD (off + 1) 0 % 256) : Nat) : Int) - 65536 :=
  rfl

/-- C20. The members of the packed `struct rmp_header` add up to 256 bytes and
start at the documented offsets (signature 0, version 4, type 6, num_layers 7,
reserved_1 8, num_entities 9, start_x 11, start_y 13, start_layer 15,
start_direction 16, num_strings 17, num_zones 19, toric_map 21, reserved 22
up to 255). `load_map` takes the string count from bytes 17 and 18 as a
little-endian signed 16-bit integer: for a file with a full header, the
signature and version 1 it returns NULL on a negative count and otherwise
makes exactly that many string reads. -/
theorem C20_header_layout :
    rmp_header_size = 256 ∧
    (rmp_header_fields.map Prod.snd).sum = rmp_header_size ∧
    packed_offsets 0 rmp_header_fields =
      [("signature", 0), ("version", 4), ("type", 6), ("num_layers", 7), ("reserved_1", 8),
       ("num_entities", 9), ("start_x", 11), ("start_y", 13), ("start_layer", 15),
       ("start_direction", 16), ("num_strings", 17), ("num_zones", 19), ("toric_map", 21),
       ("reserved", 22)] ∧
    22 + 234 = rmp_header_size ∧
    (∀ rmp : List Nat, rmp_num_strings rmp =
      if rmp.getD 17 0 % 256 + 256 * (rmp.getD 18 0 % 256) < 32768 then
        ((rmp.getD 17 0 % 256 + 256 * (rmp.getD 18 0 % 256) : Nat) : Int)
      else ((rmp.getD 17 0 % 256 + 256 * (rmp.getD 18 0 % 256) : Nat) : Int) - 65536) ∧
    (∀ (env : Env) (path : String) (file : List Nat),
      env.al_fopen path = some file → 256 ≤ file.length → file.take 4 = rmp_signature →
      rmp_version file = 1 →
      load_map env path =
        if rmp_num_strings file < 0 then .ok none
        else if (load_map.read_scripts env.al_fread_lstring (rmp_num_strings file).toNat
            (file.drop 256)).1 = true then .ok none
        else .ok (some (map_t.mk 0 0
          (load_map.read_scripts env.al_fread_lstring (rmp_num_strings file).toNat
            (file.drop 256)).2))) ∧
    (∀ (rd : List Nat → Option lstring_t × List Nat) (n : Nat) (file : List Nat),
      (load_map.read_scripts rd n file).2.length = n) := by
  refine ⟨rfl, by decide, by decide, rfl, fun rmp => read_int16_eq rmp 17, ?_,
    fun rd n file => read_scripts_length rd n file⟩
  intro env path file hopen hlen hsig hver
  have hs : (file.take 256).take 4 = file.take 4 := by simp [List.take_take]
  have hv : rmp_version (file.take 256) = rmp_version file := read_int16_take file 4 256 (by omega)
  have hn : rmp_num_strings (file.take 256) = rmp_num_strings file :=
    read_int16_take file 17 256 (by omega)
  unfold load_map
  rw [hopen]
  simp only [rmp_header_size_eq]
  rw [if_neg (by simp; omega), hs, hv, hn, if_neg (by simpa using hsig), if_pos hver]
  by_cases hneg : rmp_num_strings file < 0
  · rw [if_pos hneg, if_pos hneg]
    simp [load_map.on_error]
  · rw [if_neg hneg, if_neg hneg]
    split <;> simp_all [load_map.on_error]

/-! ## The update phase and the value stack (C22, C28) -/

theorem update_camera_none (env : Env) (s : State) (hcam : s.s_camera_person = none) :
    update_map_engine.update_camera env s = Res.ok () s := by
  unfold update_map_engine.update_camera
  simp only [bind_run, getS_run, hcam]
  rfl

theorem update_camera_some (env : Env) (s : State) (p : person_t) (m : map_t)
    (hcam : s.s_camera_person = some p) (hmap : s.s_map = some m) :
    update_map_engine.update_camera env s =
      Res.ok () { s with
        s_cam_x := (env.get_person_xy s.trace p m.width m.height).1,
        s_cam_y := (env.get_person_xy s.trace p m.width m.height).2,
        trace := s.trace ++ [Ev.get_person_xy p m.width m.height] } := by
  unfold update_map_engine.update_camera
  simp only [bind_run, getS_run, hcam, hmap, logEv_run, modifyS_run]

theorem val_callable_or (v : Val) :
    (∃ f, v = Val.function f) ∨ (∀ f, v ≠ Val.function f) := by
  cases v
  case function f => exact Or.inl ⟨f, rfl⟩
  all_goals exact Or.inr (fun f h => by cases h)

theorem call_api_vstack (env : Env) (call : List Cmd → M Unit) (fuel : Nat) (c : Cmd)
    (s s' : State) (h : call_api env call fuel c s = Res.ok () s') : s'.vstack = s.vstack := by
  rw [call_api_run] at h
  split at h
  · cases h
  · cases h
    rfl

theorem run_script_vstack (api : Cmd → M Unit)
    (hapi : ∀ c s s', api c s = Res.ok () s' → s'.vstack = s.vstack)
    (body : List Cmd) (s s' : State) (h : run_script api body s = Res.ok () s') :
    s'.vstack = s.vstack := by
  induction body generalizing s with
  | nil =>
    cases h
    rfl
  | cons c rest ih =>
    rw [run_script, bind_run] at h
    cases hc : api c s with
    | fail e t =>
      rw [hc] at h
      cases h
    | ok u t =>
      rw [hc] at h
      rw [ih t h, hapi c s t hc]

theorem invoke_vstack (env : Env) (fuel : Nat) (body : List Cmd) (s s' : State)
    (h : invoke env fuel body s = Res.ok () s') : s'.vstack = s.vstack := by
  cases fuel with
  | zero => cases h
  | succ n =>
    exact run_script_vstack _ (fun c t t' hc => call_api_vstack env _ n c t t' hc) body s s' h

/-- The tail shared by the render and update dispatch: after the call returns, the pushed
result and the stash below it are popped together. -/
theorem dispatch_tail_vstack (call : List Cmd → M Unit)
    (hcall : ∀ f t t', call f t = Res.ok () t' → t'.vstack = t.vstack)
    (f : List Cmd) (t s' : State) (x : Val) (vs : List Val) (ht : t.vstack = x :: vs)
    (h : (do call f
             duk_push Val.undefined
             duk_pop_2 : M Unit) t = Res.ok () s') : s'.vstack = vs := by
  rw [bind_run] at h
  cases hc : call f t with
  | fail e u =>
    rw [hc] at h
    cases h
  | ok a u =>
    rw [hc] at h
    have hu := hcall f t u hc
    obtain ⟨cp, cx, cy, ex, fr, ip, mp, fn, rn, st, uvs, tr⟩ := u
    simp only [ht] at hu
    subst hu
    simp only [bind_run, duk_push, modifyS_run, duk_pop_2, duk_pop] at h
    cases h
    rfl


theorem default_tail_vstack (call : List Cmd → M Unit)
    (hcall : ∀ f t t', call f t = Res.ok () t' → t'.vstack = t.vstack)
    (f : List Cmd) (t s' : State) (x : Val) (vs : List Val) (ht : t.vstack = x :: vs)
    (h : (do call f
             duk_push Val.undefined
             duk_pop
             duk_pop : M Unit) t = Res.ok () s') : s'.vstack = vs := by
  rw [bind_run] at h
  cases hc : call f t with
  | fail e u =>
    rw [hc] at h
    cases h
  | ok a u =>
    rw [hc] at h
    have hu := hcall f t u hc
    obtain ⟨cp, cx, cy, ex, fr, ip, mp, fn, rn, st, uvs, tr⟩ := u
    simp only [ht] at hu
    subst hu
    simp only [bind_run, duk_push, modifyS_run, duk_pop] at h
    cases h
    rfl

theorem entry_tail_vstack (call : List Cmd → M Unit)
    (hcall : ∀ f t t', call f t = Res.ok () t' → t'.vstack = t.vstack)
    (g : List Cmd) (t s' : State) (b : Bool)
    (h : (do call g
             duk_push Val.undefined
             duk_pop
             pure true : M Bool) t = Res.ok b s') : s'.vstack = t.vstack := by
  rw [bind_run] at h
  cases hc : call g t with
  | fail e u =>
    rw [hc] at h
    cases h
  | ok a u =>
    rw [hc] at h
    have hu := hcall g t u hc
    obtain ⟨cp, cx, cy, ex, fr, ip, mp, fn, rn, st, uvs, tr⟩ := u
    simp only [bind_run, duk_push, modifyS_run, duk_pop, pure_run] at h
    cases h
    exact hu

theorem render_map_engine_vstack (call : List Cmd → M Unit)
    (hcall : ∀ f t t', call f t = Res.ok () t' → t'.vstack = t.vstack)
    (s s' : State) (h : render_map_engine call s = Res.ok () s') : s'.vstack = s.vstack := by
  rcases Option.eq_none_or_eq_some s.s_map_filename with hn | ⟨text, hn⟩
  · rw [render_map_engine_none call s hn] at h
    cases h
  · rw [render_map_engine_blocks call s text hn] at h
    obtain ⟨cp, cx, cy, ex, fr, ip, mp, fn, rn, st, vs, tr⟩ := s
    simp only [bind_run, logEv_run] at h
    rcases val_callable_or (st "render_script") with ⟨f, hf⟩ | hf
    · rw [render_run_script_callable call _ f (by exact hf)] at h
      exact dispatch_tail_vstack call hcall f _ s' Val.global_stash vs rfl h
    · rw [render_run_script_absent call _ (by exact hf)] at h
      cases h
      rfl

theorem update_run_script_vstack (call : List Cmd → M Unit)
    (hcall : ∀ f t t', call f t = Res.ok () t' → t'.vstack = t.vstack)
    (s s' : State) (h : update_map_engine.run_script call s = Res.ok () s') :
    s'.vstack = s.vstack := by
  rcases val_callable_or (s.stash "update_script") with ⟨f, hf⟩ | hf
  · rw [update_run_script_callable call _ f (by exact hf)] at h
    exact dispatch_tail_vstack call hcall f _ s' Val.global_stash s.vstack rfl h
  · rw [update_run_script_absent call _ (by exact hf)] at h
    cases h
    rfl

theorem update_map_engine_cases (env : Env) (call : List Cmd → M Unit) (s : State) :
    update_map_engine env call s =
      (let s1 : State := { s with trace := s.trace ++ [Ev.update_persons] }
       let s2 : State :=
         match s.s_input_person with
         | none => s1
         | some p =>
           { s1 with trace := s1.trace ++ Ev.al_get_keyboard_state ::
               input_commands (env.al_get_keyboard_state s1.trace) p }
       match s.s_camera_person, s.s_map with
       | none, _ => update_map_engine.run_script call s2
       | some _, none => Res.fail (Fault.crash "s_map is NULL") s2
       | some p, some m =>
         update_map_engine.run_script call
           { s2 with
             s_cam_x := (env.get_person_xy s2.trace p m.width m.height).1,
             s_cam_y := (env.get_person_xy s2.trace p m.width m.height).2,
             trace := s2.trace ++ [Ev.get_person_xy p m.width m.height] }) := by
  rw [update_map_engine_run]
  obtain ⟨cp, cx, cy, ex, fr, ip, mp, fn, rn, st, vs, tr⟩ := s
  simp only [bind_run, check_input_run]
  cases ip <;> cases cp <;> cases mp <;>
    first
    | (simp only []; rw [update_camera_none _ _ rfl])
    | (simp only []; rw [update_camera_null _ _ _ rfl rfl])
    | (simp only []; rw [update_camera_some _ _ _ _ rfl rfl])

theorem update_map_engine_vstack (env : Env) (call : List Cmd → M Unit)
    (hcall : ∀ f t t', call f t = Res.ok () t' → t'.vstack = t.vstack)
    (s s' : State) (h : update_map_engine env call s = Res.ok () s') :
    s'.vstack = s.vstack := by
  rw [update_map_engine_cases] at h
  obtain ⟨cp, cx, cy, ex, fr, ip, mp, fn, rn, st, vs, tr⟩ := s
  cases ip <;> cases cp <;> cases mp <;> dsimp only at h <;>
    first
    | exact (update_run_script_vstack call hcall _ s' h).trans rfl
    | exact Res.noConfusion h

theorem change_map_vstack (env : Env) (call : List Cmd → M Unit)
    (hcall : ∀ f t t', call f t = Res.ok () t' → t'.vstack = t.vstack)
    (filename : String) (s s' : State) (b : Bool)
    (h : change_map env call filename s = Res.ok b s') :
    (b = false → s'.vstack = s.vstack) ∧
    (b = true → (∃ f, s.stash "map_def_enter_script" = Val.function f) →
      s'.vstack = s.vstack) ∧
    (b = true → (∀ f, s.stash "map_def_enter_script" ≠ Val.function f) →
      s'.vstack = Val.global_stash :: s.vstack) := by
  cases hl : load_map env (env.get_asset_path filename) with
  | error e =>
    unfold change_map at h
    simp only [bind_run, hl, raise_run] at h
    cases h
  | ok r =>
    cases r with
    | none =>
      rw [change_map_failed env call filename s hl] at h
      cases h
      exact ⟨fun _ => rfl, fun hb => (by cases hb), fun hb => (by cases hb)⟩
    | some m =>
      rw [change_map_loaded env call filename s m hl, bind_run] at h
      rcases val_callable_or (s.stash "map_def_enter_script") with ⟨f, hf⟩ | hf
      · rw [run_default_entry_callable call _ f (by exact hf)] at h
        generalize hd : (do call f
                            duk_push Val.undefined
                            duk_pop
                            duk_pop : M Unit) _ = r at h
        cases r with
        | fail e u => cases h
        | ok a u =>
          have hu := default_tail_vstack call hcall f _ u Val.global_stash s.vstack rfl hd
          obtain ⟨hb, cur, src, g, _, _, _, hrun⟩ := run_entry_script_returns env call u b s' h
          have hv := entry_tail_vstack call hcall g _ s' true hrun
          subst hb
          simp only [] at hv
          refine ⟨fun hb => (by cases hb), fun _ _ => (by rw [hv, hu]), fun _ hn => ?_⟩
          exact absurd hf (hn f)
      · rw [run_default_entry_absent call _ (by exact hf)] at h
        obtain ⟨hb, cur, src, g, _, _, _, hrun⟩ := run_entry_script_returns env call _ b s' h
        have hv := entry_tail_vstack call hcall g _ s' true hrun
        subst hb
        simp only [] at hv
        refine ⟨fun hb => (by cases hb), fun _ hc => ?_, fun _ _ => hv⟩
        obtain ⟨f, hf2⟩ := hc
        exact absurd hf2 (hf f)

theorem update_run_script_cases (call : List Cmd → M Unit) (t : State) :
    update_map_engine.run_script call t =
      match t.stash "update_script" with
      | Val.function f =>
        (do call f
            duk_push Val.undefined
            duk_pop_2)
          { t with vstack := Val.global_stash :: t.vstack, trace := t.trace ++ [Ev.duk_call f] }
      | _ => Res.ok () t := by
  rcases val_callable_or (t.stash "update_script") with ⟨f, hf⟩ | hf
  · rw [update_run_script_callable call t f hf, hf]
  · rw [update_run_script_absent call t hf]
    split
    · next f h => exact absurd h (hf f)
    · rfl

/-- C22: every update phase runs, in this order and once each, `update_persons`, the input
sampling for the attached input entity (one keyboard poll and the Face and Move command of the
dominant direction), the camera recomputation from the attached camera entity, and the update
script dispatch; with no camera entity attached the state reaching the update script has the
camera offset it had before the phase. -/
theorem C22_update_phase_order (env : Env) (call : List Cmd → M Unit) (s : State) :
    update_map_engine env call s =
      (let s1 : State := { s with trace := s.trace ++ [Ev.update_persons] }
       let s2 : State :=
         match s.s_input_person with
         | none => s1
         | some p =>
           { s1 with trace := s1.trace ++ Ev.al_get_keyboard_state ::
               input_commands (env.al_get_keyboard_state s1.trace) p }
       match s.s_camera_person, s.s_map with
       | none, _ => update_map_engine.run_script call s2
       | some _, none => Res.fail (Fault.crash "s_map is NULL") s2
       | some p, some m =>
         update_map_engine.run_script call
           { s2 with
             s_cam_x := (env.get_person_xy s2.trace p m.width m.height).1,
             s_cam_y := (env.get_person_xy s2.trace p m.width m.height).2,
             trace := s2.trace ++ [Ev.get_person_xy p m.width m.height] }) ∧
    update_map_engine.run_script call s =
      (match s.stash "update_script" with
       | Val.function f =>
         (do call f
             duk_push Val.undefined
             duk_pop_2)
           { s with vstack := Val.global_stash :: s.vstack, trace := s.trace ++ [Ev.duk_call f] }
       | _ => Res.ok () s) :=
  ⟨update_map_engine_cases env call s, update_run_script_cases call s⟩

/-- C28: the render and update dispatch return with the value stack as they found it, and so
does a successful `change_map` whose default entry slot holds a function; but a successful
`change_map` whose default entry slot holds no function returns with the global stash still on
the value stack, one entry above the height it found. -/
theorem C28_dispatch_stack_height (env : Env) (fuel : Nat) (s s' : State) :
    (render_map_engine (invoke env fuel) s = Res.ok () s' → s'.vstack = s.vstack) ∧
    (update_map_engine env (invoke env fuel) s = Res.ok () s' → s'.vstack = s.vstack) ∧
    (∀ filename : String, change_map env (invoke env fuel) filename s = Res.ok true s' →
      (∃ f, s.stash "map_def_enter_script" = Val.function f) → s'.vstack = s.vstack) ∧
    (∀ filename : String, change_map env (invoke env fuel) filename s = Res.ok true s' →
      (∀ f, s.stash "map_def_enter_script" ≠ Val.function f) →
      s'.vstack = Val.global_stash :: s.vstack) :=
  ⟨render_map_engine_vstack _ (invoke_vstack env fuel) s s',
   update_map_engine_vstack env _ (invoke_vstack env fuel) s s',
   fun filename h =>
     (change_map_vstack env _ (invoke_vstack env fuel) filename s s' true h).2.1 rfl,
   fun filename h =>
     (change_map_vstack env _ (invoke_vstack env fuel) filename s s' true h).2.2 rfl⟩

set_option maxRecDepth 100000 in
theorem C28_witness :
    (change_map town_env (invoke town_env 2) "town.rmp" State.init).state.vstack =
      Val.global_stash :: State.init.vstack :=
  (C28_dispatch_stack_height town_env 2 State.init
      (change_map town_env (invoke town_env 2) "town.rmp" State.init).state).2.2.2 "town.rmp"
    ((res_eq_ok _ false (by decide!)).trans
      (congrArg (fun b => Res.ok b _)
        (by decide! :
          (change_map town_env (invoke town_env 2) "town.rmp" State.init).value false = true)))
    (fun f h => by cases h)

/-! ## Byte arrays (C23 to C26) -/

theorem wrap_int_of_range (x : Int) (h1 : INT_MIN ≤ x) (h2 : x ≤ INT_MAX) : wrap_int x = x := by
  unfold INT_MIN at h1
  unfold INT_MAX at h2
  unfold wrap_int
  omega

theorem wrap_int_le (x : Int) : wrap_int x ≤ INT_MAX := by
  unfold wrap_int INT_MAX
  omega

theorem end_norm_le (size end_ : Int) : js_ByteArray_slice.end_norm size end_ ≤ size := by
  unfold js_ByteArray_slice.end_norm
  exact min_le_right _ _

theorem new_bytearray_nonneg (size : Int) (h : 0 ≤ size) :
    new_bytearray size =
      some { refcount := 1, buffer := List.replicate size.toNat 0, size := size } := by
  unfold new_bytearray ref_bytearray
  rw [if_neg (by omega)]
  rfl

theorem new_bytearray_neg (size : Int) (h : size < 0) : new_bytearray size = none := by
  unfold new_bytearray
  rw [if_pos h]

theorem memcpy_zero (dest src : List Nat) (dest_off src_off : Int) :
    memcpy dest dest_off src src_off 0 = .ok dest := by
  unfold memcpy
  simp

theorem memcpy_inside (dest src : List Nat) (dest_off src_off n : Int) (hn : 0 < n)
    (hs : 0 ≤ src_off) (hs2 : src_off + n ≤ src.length)
    (hd : 0 ≤ dest_off) (hd2 : dest_off + n ≤ dest.length) :
    memcpy dest dest_off src src_off n =
      .ok (dest.take dest_off.toNat ++ (src.drop src_off.toNat).take n.toNat ++
        dest.drop (dest_off + n).toNat) := by
  unfold memcpy
  rw [if_neg (by omega), if_neg (by omega), if_neg (by omega), if_neg (by omega)]

theorem memcpy_before (dest src : List Nat) (dest_off src_off n : Int) (hn : 0 < n)
    (hs : src_off < 0) :
    memcpy dest dest_off src src_off n =
      .error (Fault.crash "memcpy reads outside the source buffer") := by
  unfold memcpy
  rw [if_neg (by omega), if_neg (by omega), if_pos (Or.inl hs)]

/-- Copying `n` bytes to the start of a zeroed allocation of `n` bytes. -/
theorem memcpy_fill (src : List Nat) (src_off n : Int) (hn : 0 ≤ n)
    (hs : 0 ≤ src_off) (hs2 : src_off + n ≤ src.length) :
    memcpy (List.replicate n.toNat 0) 0 src src_off n =
      .ok ((src.drop src_off.toNat).take n.toNat) := by
  rcases eq_or_lt_of_le hn with h0 | hpos
  · subst h0
    rw [memcpy_zero]
    simp
  · rw [memcpy_inside _ _ _ _ _ hpos hs hs2 (le_refl _) (by simp)]
    simp

theorem slice_bytearray_inside (a : bytearray_t) (start length : Int) (hl : 0 ≤ length)
    (hs : 0 ≤ start) (hs2 : start + length ≤ a.buffer.length) :
    slice_bytearray a start length =
      .ok (some { refcount := 1, buffer := (a.buffer.drop start.toNat).take length.toNat,
                  size := length }) := by
  unfold slice_bytearray
  rw [new_bytearray_nonneg _ hl]
  simp only []
  rw [memcpy_fill _ _ _ hl hs hs2]
  rfl

theorem slice_bytearray_before (a : bytearray_t) (start length : Int) (hl : 0 < length)
    (hs : start < 0) :
    slice_bytearray a start length =
      .error (Fault.crash "memcpy reads outside the source buffer") := by
  unfold slice_bytearray
  rw [new_bytearray_nonneg _ (le_of_lt hl)]
  simp only []
  rw [memcpy_before _ _ _ _ _ hl hs]
  rfl


theorem js_ByteArray_slice_run (a : bytearray_t) (start : Int) (end_arg : Option Int) :
    js_ByteArray_slice a start end_arg =
      if js_ByteArray_slice.end_norm a.size (end_arg.getD INT_MAX) < start ∨
          js_ByteArray_slice.end_norm a.size (end_arg.getD INT_MAX) > a.size then
        .error (Fault.error ErrCode.DUK_ERR_RANGE_ERROR
          "ByteArray:slice(): Start and/or end values out of bounds")
      else
        match slice_bytearray a start
            (wrap_int (js_ByteArray_slice.end_norm a.size (end_arg.getD INT_MAX) - start)) with
        | .error e => .error e
        | .ok none =>
          .error (Fault.error ErrCode.DUK_ERR_ERROR
            "ByteArray:slice(): Failed to create sliced byte array")
        | .ok (some new_array) => .ok (duk_push_sphere_bytearray new_array) := by
  unfold js_ByteArray_slice
  dsimp only
  split
  · rfl
  · cases slice_bytearray a start _ with
    | error e => rfl
    | ok r =>
      cases r <;> rfl

/-- C23: `ByteArray.slice` raises its RangeError exactly when `end_norm < start`; the start
index itself is never compared with zero. A call with `0 <= start <= end_norm` returns the
bytes at indices `start..end_norm-1`, but a call with a negative `start` below `end_norm`
passes the guard as well and makes `slice_bytearray` copy from before the buffer. -/
theorem C23_slice_start_unchecked (a : bytearray_t) (start : Int) (end_arg : Option Int)
    (hwf : bytearray_wf a) :
    (js_ByteArray_slice.end_norm a.size (end_arg.getD INT_MAX) < start →
      js_ByteArray_slice a start end_arg =
        .error (Fault.error ErrCode.DUK_ERR_RANGE_ERROR
          "ByteArray:slice(): Start and/or end values out of bounds")) ∧
    (0 ≤ start → start ≤ js_ByteArray_slice.end_norm a.size (end_arg.getD INT_MAX) →
      js_ByteArray_slice a start end_arg =
        .ok { refcount := 2,
              buffer := (a.buffer.drop start.toNat).take
                (js_ByteArray_slice.end_norm a.size (end_arg.getD INT_MAX) - start).toNat,
              size := js_ByteArray_slice.end_norm a.size (end_arg.getD INT_MAX) - start }) ∧
    (start < 0 → start < js_ByteArray_slice.end_norm a.size (end_arg.getD INT_MAX) →
      js_ByteArray_slice.end_norm a.size (end_arg.getD INT_MAX) - start ≤ INT_MAX →
      js_ByteArray_slice a start end_arg =
        .error (Fault.crash "memcpy reads outside the source buffer")) := by
  have hle := end_norm_le a.size (end_arg.getD INT_MAX)
  obtain ⟨hlen, hmax⟩ := hwf
  rw [js_ByteArray_slice_run]
  generalize js_ByteArray_slice.end_norm a.size (end_arg.getD INT_MAX) = en at hle ⊢
  unfold INT_MAX at hmax
  refine ⟨fun h => ?_, fun h0 h1 => ?_, fun h0 h1 h2 => ?_⟩
  · rw [if_pos (Or.inl h)]
  · rw [if_neg (by omega), wrap_int_of_range _ (by unfold INT_MIN; omega) (by unfold INT_MAX; omega),
      slice_bytearray_inside a start (en - start) (by omega) h0 (by omega)]
    rfl
  · rw [if_neg (by omega), wrap_int_of_range _ (by unfold INT_MIN; omega) h2,
      slice_bytearray_before a start (en - start) (by omega) h0]

theorem C23_witness :
    js_ByteArray_slice quad_array (-2) (some 2) =
      .error (Fault.crash "memcpy reads outside the source buffer") :=
  (C23_slice_start_unchecked quad_array (-2) (some 2) (by decide)).2.2
    (by decide) (by decide) (by decide)


/-- Copying a whole source over the middle part of a destination. -/
theorem memcpy_place (pre mid post src : List Nat) (hm : mid.length = src.length) :
    memcpy (pre ++ mid ++ post) pre.length src 0 src.length = .ok (pre ++ src ++ post) := by
  rcases Nat.eq_zero_or_pos src.length with h0 | hpos
  · rw [h0]
    have hs : src = [] := List.length_eq_zero.mp h0
    have hmid : mid = [] := List.length_eq_zero.mp (hm.trans h0)
    subst hs hmid
    exact memcpy_zero _ _ _ _
  · rw [memcpy_inside _ _ _ _ _ (by exact_mod_cast hpos) (le_refl _) (by simp)
      (by exact_mod_cast Nat.zero_le _) (by simp; omega)]
    have h1 : ((pre.length : Int) + (src.length : Int)).toNat = pre.length + mid.length := by
      rw [hm]
      omega
    simp only [Int.toNat_ofNat, Int.toNat_zero, List.drop_zero, h1, List.take_length]
    rw [List.append_assoc pre mid post, List.take_left, ← List.append_assoc pre mid post,
      ← List.length_append, List.drop_left]

theorem concat_bytearrays_fits (a b : bytearray_t) (ha : bytearray_wf a) (hb : bytearray_wf b)
    (hsum : a.size + b.size ≤ INT_MAX) :
    concat_bytearrays a b =
      .ok (some { refcount := 1, buffer := a.buffer ++ b.buffer, size := a.size + b.size }) := by
  obtain ⟨hla, _⟩ := ha
  obtain ⟨hlb, _⟩ := hb
  unfold concat_bytearrays
  dsimp only
  rw [wrap_int_of_range _ (by unfold INT_MIN; omega) hsum, new_bytearray_nonneg _ (by omega)]
  dsimp only
  have hrep : List.replicate (a.size + b.size).toNat 0 =
      [] ++ List.replicate a.buffer.length 0 ++ List.replicate b.buffer.length 0 := by
    rw [List.nil_append, ← List.replicate_add]
    congr 1
    omega
  have h1 := memcpy_place [] (List.replicate a.buffer.length 0)
    (List.replicate b.buffer.length 0) a.buffer (by simp)
  have h2 := memcpy_place a.buffer (List.replicate b.buffer.length 0) [] b.buffer (by simp)
  rw [hrep, ← hla, ← hlb]
  simp only [List.length_nil, Nat.cast_zero, List.nil_append, List.append_nil] at h1 h2 ⊢
  rw [h1]
  simp only [Except.bind, bind]
  rw [h2]

theorem slice_bytearray_left (x y : List Nat) (r : Int) :
    slice_bytearray { refcount := r, buffer := x ++ y, size := x.length + y.length } 0 x.length =
      .ok (some { refcount := 1, buffer := x, size := x.length }) := by
  rw [slice_bytearray_inside _ 0 x.length (by omega) (le_refl _) (by simp)]
  simp

theorem slice_bytearray_right (x y : List Nat) (r : Int) :
    slice_bytearray { refcount := r, buffer := x ++ y, size := x.length + y.length }
        x.length y.length =
      .ok (some { refcount := 1, buffer := y, size := y.length }) := by
  rw [slice_bytearray_inside _ x.length y.length (by omega) (by omega) (by simp)]
  simp

theorem big_array_wf : bytearray_wf big_array := by
  unfold bytearray_wf big_array INT_MAX
  simp only [List.length_replicate]
  exact ⟨rfl, by decide⟩


theorem big_array_sum : wrap_int (big_array.size + big_array.size) < 0 := by
  show wrap_int ((1073741824 : Int) + 1073741824) < 0
  decide

theorem C24_counterexample :
    bytearray_wf big_array ∧ concat_bytearrays big_array big_array = .ok none := by
  refine ⟨big_array_wf, ?_⟩
  unfold concat_bytearrays
  dsimp only
  rw [new_bytearray_neg _ big_array_sum]

/-- C24 (amended): for byte arrays `a` and `b` whose sizes add up to at most `INT_MAX`,
`concat_bytearrays a b` is a new array of size `a.size + b.size` holding the bytes of `a`
followed by those of `b`; slicing it at `0` for `a.size` bytes gives the bytes of `a`, and at
`a.size` for `b.size` bytes the bytes of `b`. The functions only read their arguments. -/
theorem C24_concat_slice_roundtrip (a b : bytearray_t) (ha : bytearray_wf a)
    (hb : bytearray_wf b) (hsum : a.size + b.size ≤ INT_MAX) :
    concat_bytearrays a b =
      .ok (some { refcount := 1, buffer := a.buffer ++ b.buffer, size := a.size + b.size }) ∧
    slice_bytearray
        { refcount := 1, buffer := a.buffer ++ b.buffer, size := a.size + b.size } 0 a.size =
      .ok (some { refcount := 1, buffer := a.buffer, size := a.size }) ∧
    slice_bytearray
        { refcount := 1, buffer := a.buffer ++ b.buffer, size := a.size + b.size }
        a.size b.size =
      .ok (some { refcount := 1, buffer := b.buffer, size := b.size }) := by
  refine ⟨concat_bytearrays_fits a b ha hb hsum, ?_, ?_⟩
  · rw [← ha.1, ← hb.1]
    exact slice_bytearray_left a.buffer b.buffer 1
  · rw [← ha.1, ← hb.1]
    exact slice_bytearray_right a.buffer b.buffer 1

theorem C24_witness :
    concat_bytearrays quad_array pair_array =
      .ok (some { refcount := 1, buffer := [10, 20, 30, 40, 50, 60], size := 6 }) :=
  (C24_concat_slice_roundtrip quad_array pair_array (by decide) (by decide) (by decide)).1


theorem new_bytearray_refcount (size : Int) (x : bytearray_t) (h : new_bytearray size = some x) :
    x.refcount = 1 := by
  unfold new_bytearray at h
  split at h
  · cases h
  · cases h
    rfl

theorem concat_bytearrays_refcount (a b c : bytearray_t)
    (h : concat_bytearrays a b = .ok (some c)) : c.refcount = 1 := by
  unfold concat_bytearrays at h
  dsimp only at h
  cases hn : new_bytearray (wrap_int (a.size + b.size)) with
  | none =>
    rw [hn] at h
    cases h
  | some x =>
    rw [hn] at h
    dsimp only at h
    cases h1 : memcpy x.buffer 0 a.buffer 0 a.size with
    | error e =>
      rw [h1] at h
      cases h
    | ok b1 =>
      rw [h1] at h
      cases h2 : memcpy b1 a.size b.buffer 0 b.size with
      | error e =>
        simp only [bind, Except.bind, h2] at h
        cases h
      | ok b2 =>
        simp only [bind, Except.bind, h2] at h
        cases h
        exact new_bytearray_refcount _ x hn

theorem slice_bytearray_refcount (a c : bytearray_t) (start length : Int)
    (h : slice_bytearray a start length = .ok (some c)) : c.refcount = 1 := by
  unfold slice_bytearray at h
  cases hn : new_bytearray length with
  | none =>
    rw [hn] at h
    cases h
  | some x =>
    rw [hn] at h
    dsimp only at h
    cases h1 : memcpy x.buffer 0 a.buffer start length with
    | error e =>
      simp only [bind, Except.bind, h1] at h
      cases h
    | ok b1 =>
      simp only [bind, Except.bind, h1] at h
      cases h
      exact new_bytearray_refcount _ x hn

theorem bytearray_from_lstring_refcount (string : lstring_t) (c : bytearray_t)
    (h : bytearray_from_lstring string = .ok (some c)) : c.refcount = 1 := by
  unfold bytearray_from_lstring at h
  split at h
  · cases h
  · cases hn : new_bytearray (string.length : Int) with
    | none =>
      rw [hn] at h
      cases h
    | some x =>
      rw [hn] at h
      dsimp only at h
      cases h1 : memcpy x.buffer 0 string 0 string.length with
      | error e =>
        simp only [bind, Except.bind, h1] at h
        cases h
      | ok b1 =>
        simp only [bind, Except.bind, h1] at h
        cases h
        exact new_bytearray_refcount _ x hn

theorem push_then_free (x : bytearray_t) (h : x.refcount = 1) :
    free_bytearray (duk_push_sphere_bytearray x) = some x := by
  obtain ⟨r, bf, sz⟩ := x
  simp only at h
  subst h
  rfl

theorem finalize_pushed (x : bytearray_t) (h : x.refcount = 1) :
    js_ByteArray_finalize (duk_push_sphere_bytearray x) =
      some { duk_push_sphere_bytearray x with refcount := 1 } := by
  obtain ⟨r, bf, sz⟩ := x
  simp only at h
  subst h
  rfl

theorem finalize_single (x : bytearray_t) (h : x.refcount = 1) :
    js_ByteArray_finalize x = none := by
  obtain ⟨r, bf, sz⟩ := x
  simp only at h
  subst h
  rfl

theorem js_new_ByteArray_returns (arg : lstring_t ⊕ Int) (r : Option bytearray_t)
    (h : js_new_ByteArray arg = .ok r) : ∃ x, r = some x ∧ x.refcount = 1 := by
  unfold js_new_ByteArray at h
  cases arg with
  | inl string =>
    dsimp only at h
    split at h
    · cases h
    · cases hb : bytearray_from_lstring string with
      | error e =>
        simp only [bind, Except.bind, hb] at h
        cases h
      | ok o =>
        cases o with
        | none =>
          simp only [bind, Except.bind, hb] at h
          cases h
        | some x =>
          simp only [bind, Except.bind, hb, pure, Except.pure] at h
          cases h
          have hx := bytearray_from_lstring_refcount string x hb
          exact ⟨x, push_then_free x hx, hx⟩
  | inr size =>
    dsimp only at h
    split at h
    · cases h
    · cases hn : new_bytearray size with
      | none =>
        simp only [bind, Except.bind, hn] at h
        cases h
      | some x =>
        simp only [bind, Except.bind, hn, pure, Except.pure] at h
        cases h
        have hx := new_bytearray_refcount size x hn
        exact ⟨x, push_then_free x hx, hx⟩

theorem js_ByteArray_concat_run (a b : bytearray_t) :
    js_ByteArray_concat a b =
      match concat_bytearrays a b with
      | .error e => .error e
      | .ok none =>
        .error (Fault.error ErrCode.DUK_ERR_ERROR
          "ByteArray:concat(): Failed to create concatenated byte array")
      | .ok (some new_array) => .ok (duk_push_sphere_bytearray new_array) := by
  unfold js_ByteArray_concat
  rw [if_neg (not_lt.mpr (wrap_int_le _))]
  cases concat_bytearrays a b with
  | error e => rfl
  | ok r => cases r <;> rfl

theorem js_ByteArray_concat_returns (a b c : bytearray_t)
    (h : js_ByteArray_concat a b = .ok c) :
    ∃ x, c = duk_push_sphere_bytearray x ∧ x.refcount = 1 := by
  rw [js_ByteArray_concat_run] at h
  cases hc : concat_bytearrays a b with
  | error e =>
    rw [hc] at h
    cases h
  | ok r =>
    cases r with
    | none =>
      rw [hc] at h
      cases h
    | some x =>
      rw [hc] at h
      cases h
      exact ⟨x, rfl, concat_bytearrays_refcount a b x hc⟩

theorem js_ByteArray_slice_returns (a c : bytearray_t) (start : Int) (end_arg : Option Int)
    (h : js_ByteArray_slice a start end_arg = .ok c) :
    ∃ x, c = duk_push_sphere_bytearray x ∧ x.refcount = 1 := by
  rw [js_ByteArray_slice_run] at h
  split at h
  · cases h
  · cases hc : slice_bytearray a start
        (wrap_int (js_ByteArray_slice.end_norm a.size (end_arg.getD INT_MAX) - start)) with
    | error e =>
      rw [hc] at h
      cases h
    | ok r =>
      cases r with
      | none =>
        rw [hc] at h
        cases h
      | some x =>
        rw [hc] at h
        cases h
        exact ⟨x, rfl, slice_bytearray_refcount a x start _ hc⟩

/-- C25: the guard of `ByteArray.concat` compares an `int` sum with `INT_MAX`, which no `int`
exceeds: the call never raises a RangeError, and when the two sizes add up to more than
`INT_MAX` it goes on to call `concat_bytearrays`, whose wrapped size is negative, and reports
the failed allocation with a plain Error. -/
theorem C25_concat_guard_never_fires (a b : bytearray_t) (ha : bytearray_wf a)
    (hb : bytearray_wf b) :
    (∀ msg, js_ByteArray_concat a b ≠ .error (Fault.error ErrCode.DUK_ERR_RANGE_ERROR msg)) ∧
    (INT_MAX < a.size + b.size →
      concat_bytearrays a b = .ok none ∧
      js_ByteArray_concat a b =
        .error (Fault.error ErrCode.DUK_ERR_ERROR
          "ByteArray:concat(): Failed to create concatenated byte array")) := by
  have hover : INT_MAX < a.size + b.size → concat_bytearrays a b = .ok none := by
    intro h
    unfold concat_bytearrays
    dsimp only
    rw [new_bytearray_neg]
    have h1 := ha.2
    have h2 := hb.2
    unfold INT_MAX at h h1 h2
    unfold wrap_int
    omega
  refine ⟨fun msg h => ?_, fun h => ⟨hover h, ?_⟩⟩
  · rw [js_ByteArray_concat_run] at h
    rcases le_or_lt (a.size + b.size) INT_MAX with hfit | hbig
    · rw [concat_bytearrays_fits a b ha hb hfit] at h
      cases h
    · rw [hover hbig] at h
      cases h
  · rw [js_ByteArray_concat_run, hover h]

theorem C25_witness :
    js_ByteArray_concat big_array big_array =
      .error (Fault.error ErrCode.DUK_ERR_ERROR
        "ByteArray:concat(): Failed to create concatenated byte array") :=
  ((C25_concat_guard_never_fires big_array big_array big_array_wf big_array_wf).2
    (by show (2147483647 : Int) < 1073741824 + 1073741824; decide)).2

/-- C26: the array the `ByteArray` constructor creates is left with reference count 1, which
the finalizer's `free_bytearray` brings to zero; the arrays `ByteArray.concat` and
`ByteArray.slice` create are left with reference count 2, because neither call drops its own
reference after `duk_push_sphere_bytearray`, so the finalizer leaves them allocated with
count 1. -/
theorem C26_refcount_on_return :
    (∀ arg r, js_new_ByteArray arg = .ok r →
      ∃ x, r = some x ∧ x.refcount = 1 ∧ js_ByteArray_finalize x = none) ∧
    (∀ a b c, js_ByteArray_concat a b = .ok c →
      c.refcount = 2 ∧ js_ByteArray_finalize c = some { c with refcount := 1 }) ∧
    (∀ a start end_arg c, js_ByteArray_slice a start end_arg = .ok c →
      c.refcount = 2 ∧ js_ByteArray_finalize c = some { c with refcount := 1 }) := by
  refine ⟨fun arg r h => ?_, fun a b c h => ?_, fun a start end_arg c h => ?_⟩
  · obtain ⟨x, hr, hx⟩ := js_new_ByteArray_returns arg r h
    exact ⟨x, hr, hx, finalize_single x hx⟩
  · obtain ⟨x, hc, hx⟩ := js_ByteArray_concat_returns a b c h
    subst hc
    refine ⟨?_, finalize_pushed x hx⟩
    show x.refcount + 1 = 2
    omega
  · obtain ⟨x, hc, hx⟩ := js_ByteArray_slice_returns a c start end_arg h
    subst hc
    refine ⟨?_, finalize_pushed x hx⟩
    show x.refcount + 1 = 2
    omega

theorem C26_witness :
    js_ByteArray_finalize
        { refcount := 2, buffer := [10, 20, 30, 40, 50, 60], size := 6 } =
      some { refcount := 1, buffer := [10, 20, 30, 40, 50, 60], size := 6 } :=
  (C26_refcount_on_return.2.1 quad_array pair_array
    { refcount := 2, buffer := [10, 20, 30, 40, 50, 60], size := 6 } rfl).2

/-! ## The key queue (C27) -/

theorem queue_key_valid (k : Int) (q : key_queue) (hv : key_queue_valid q) :
    key_queue_valid (queue_key k q) := by
  obtain ⟨h0, h1, h2⟩ := hv
  unfold queue_key
  split
  · refine ⟨?_, ?_, ?_⟩
    · show 0 ≤ q.num_keys + 1
      omega
    · show q.num_keys + 1 ≤ 255
      omega
    · show (q.keys.set q.num_keys.toNat k).length = 255
      rw [List.length_set, h2]
  · exact ⟨h0, h1, h2⟩

theorem queue_key_contents (k : Int) (q : key_queue) (hv : key_queue_valid q) :
    key_queue_contents (queue_key k q) =
      if (key_queue_contents q).length < 255 then key_queue_contents q ++ [k]
      else key_queue_contents q := by
  obtain ⟨h0, h1, h2⟩ := hv
  obtain ⟨n, keys⟩ := q
  simp only at h0 h1 h2
  obtain ⟨m, rfl⟩ := Int.eq_ofNat_of_zero_le h0
  have hm : m ≤ 255 := by omega
  unfold queue_key key_queue_contents
  simp only [Int.toNat_ofNat, List.length_take, h2, min_eq_left hm]
  by_cases hlt : m < 255
  · rw [if_pos (by omega), if_pos hlt]
    have h3 : ((m : Int) + 1).toNat = m + 1 := by omega
    simp only [h3]
    rw [List.take_succ, List.set_take, List.set_eq_of_length_le (by simp)]
    simp [h2, hlt]
  · rw [if_neg (by omega), if_neg hlt]
    rfl

theorem clear_key_queue_valid (q : key_queue) (hv : key_queue_valid q) :
    key_queue_valid (clear_key_queue q) := by
  refine ⟨?_, ?_, hv.2.2⟩
  · show (0 : Int) ≤ 0
    omega
  · show (0 : Int) ≤ 255
    omega

theorem queue_key_full (k : Int) (q : key_queue) (h : q.num_keys = 255) : queue_key k q = q := by
  unfold queue_key
  rw [if_neg (by omega)]

theorem js_GetKey_empty (q : key_queue) (hv : key_queue_valid q)
    (h : key_queue_contents q = []) : js_GetKey q = none := by
  obtain ⟨h0, h1, h2⟩ := hv
  obtain ⟨n, keys⟩ := q
  simp only at h0 h1 h2
  obtain ⟨m, rfl⟩ := Int.eq_ofNat_of_zero_le h0
  unfold key_queue_contents at h
  simp only [Int.toNat_ofNat] at h
  have hl := congrArg List.length h
  simp only [List.length_take, h2, List.length_nil] at hl
  have hm : m = 0 := by omega
  subst hm
  rfl

theorem js_GetKey_cons (q : key_queue) (hv : key_queue_valid q) (k : Int) (l : List Int)
    (h : key_queue_contents q = k :: l) :
    ∃ q1, js_GetKey q = some (k, q1) ∧ key_queue_valid q1 ∧ key_queue_contents q1 = l := by
  obtain ⟨h0, h1, h2⟩ := hv
  obtain ⟨n, keys⟩ := q
  simp only at h0 h1 h2
  obtain ⟨m, rfl⟩ := Int.eq_ofNat_of_zero_le h0
  unfold key_queue_contents at h
  simp only [Int.toNat_ofNat] at h
  cases m with
  | zero => simp at h
  | succ j =>
    cases keys with
    | nil => simp at h2
    | cons x xs =>
      simp only [List.take_succ_cons, List.cons.injEq] at h
      obtain ⟨hx, hl⟩ := h
      subst hx
      simp only [List.length_cons] at h2
      have hj : j ≤ xs.length := by
        have : ((j + 1 : Nat) : Int) ≤ 255 := h1
        omega
      have h3 : (((j + 1 : Nat) : Int) - 1).toNat = j := by omega
      refine ⟨{ num_keys := ((j + 1 : Nat) : Int) - 1,
                keys := memmove_keys (x :: xs) (((j + 1 : Nat) : Int) - 1) }, ?_, ?_, ?_⟩
      · unfold js_GetKey
        rw [if_neg (by simp only []; omega)]
        rfl
      · refine ⟨?_, ?_, ?_⟩
        · show 0 ≤ ((j + 1 : Nat) : Int) - 1
          omega
        · show ((j + 1 : Nat) : Int) - 1 ≤ 255
          omega
        · show (memmove_keys (x :: xs) (((j + 1 : Nat) : Int) - 1)).length = 255
          unfold memmove_keys
          rw [h3]
          simp only [List.drop_succ_cons, List.drop_zero, List.length_append, List.length_take,
            List.length_drop, List.length_cons]
          omega
      · unfold key_queue_contents memmove_keys
        simp only [h3, List.drop_succ_cons, List.drop_zero]
        rw [List.take_append_of_le_length (by simp [hj]), List.take_take, min_self]
        exact hl

theorem run_key_ops_refines (ops : List key_op) (q : key_queue) (hv : key_queue_valid q) :
    (run_key_ops ops q).map (fun r => (key_queue_contents r.1, r.2)) =
      run_fifo ops (key_queue_contents q) := by
  induction ops generalizing q with
  | nil => rfl
  | cons op rest ih =>
    cases op with
    | queue_key k =>
      rw [run_key_ops, run_fifo, ih _ (queue_key_valid k q hv), queue_key_contents k q hv]
    | clear_key_queue =>
      rw [run_key_ops, run_fifo, ih _ (clear_key_queue_valid q hv)]
      rfl
    | GetKey =>
      rw [run_key_ops]
      cases hc : key_queue_contents q with
      | nil =>
        rw [js_GetKey_empty q hv hc, run_fifo]
        rfl
      | cons k l =>
        obtain ⟨q1, hg, hv1, hc1⟩ := js_GetKey_cons q hv k l hc
        rw [hg, run_fifo]
        simp only [Option.map_map]
        rw [← hc1, ← ih q1 hv1]
        simp only [Option.map_map]
        rfl

theorem run_key_ops_valid (ops : List key_op) (q q1 : key_queue) (out : List Int)
    (hv : key_queue_valid q) (h : run_key_ops ops q = some (q1, out)) : key_queue_valid q1 := by
  induction ops generalizing q out with
  | nil =>
    cases h
    exact hv
  | cons op rest ih =>
    cases op with
    | queue_key k =>
      rw [run_key_ops] at h
      exact ih _ _ (queue_key_valid k q hv) h
    | clear_key_queue =>
      rw [run_key_ops] at h
      exact ih _ _ (clear_key_queue_valid q hv) h
    | GetKey =>
      rw [run_key_ops] at h
      cases hc : key_queue_contents q with
      | nil =>
        rw [js_GetKey_empty q hv hc] at h
        cases h
      | cons k l =>
        obtain ⟨q2, hg, hv2, _⟩ := js_GetKey_cons q hv k l hc
        rw [hg] at h
        simp only [Option.map_eq_some'] at h
        obtain ⟨⟨q3, out3⟩, hr, he⟩ := h
        cases he
        exact ih _ _ hv2 hr

/-- C27: started from a queue with its 255 slots and a count within `0..255`, every sequence
of `queue_key`, `clear_key_queue` and `GetKey` leaves the count within `0..255`; `queue_key`
on a full queue returns the queue unchanged; and the keys `GetKey` returns and the keys left
waiting are those of a bounded first-in first-out list run on the same operations, a `GetKey`
on an empty queue being the one case in which neither run goes on. -/
theorem C27_key_queue_fifo (ops : List key_op) (q : key_queue) (hv : key_queue_valid q) :
    (∀ q1 out, run_key_ops ops q = some (q1, out) → 0 ≤ q1.num_keys ∧ q1.num_keys ≤ 255) ∧
    (∀ k, q.num_keys = 255 → queue_key k q = q) ∧
    (run_key_ops ops q).map (fun r => (key_queue_contents r.1, r.2)) =
      run_fifo ops (key_queue_contents q) :=
  ⟨fun q1 out h =>
     ⟨(run_key_ops_valid ops q q1 out hv h).1, (run_key_ops_valid ops q q1 out hv h).2.1⟩,
   fun k h => queue_key_full k q h,
   run_key_ops_refines ops q hv⟩

set_option maxRecDepth 100000 in
theorem C27_witness :
    (run_key_ops [key_op.queue_key 5, key_op.queue_key 7, key_op.GetKey, key_op.queue_key 9,
        key_op.GetKey] s_key_queue).map (fun r => (key_queue_contents r.1, r.2)) =
      some ([9], [5, 7]) :=
  (C27_key_queue_fifo [key_op.queue_key 5, key_op.queue_key 7, key_op.GetKey,
    key_op.queue_key 9, key_op.GetKey] s_key_queue (by decide)).2.2.trans (by decide)

/-! ## Images (C29, C30) -/

theorem uint32_of_bytes_eq (R G B A : Nat) (hR : R < 256) (hG : G < 256) (hB : B < 256)
    (hA : A < 256) : uint32_of_bytes R G B A = abgr_8888 R G B A := by
  have e1 : 256 * G ||| R = 256 * G + R :=
    (Nat.mul_add_lt_is_or (show R < 2 ^ 8 by omega) G).symm
  have e2 : 65536 * B ||| (256 * G + R) = 65536 * B + (256 * G + R) :=
    (Nat.mul_add_lt_is_or (show 256 * G + R < 2 ^ 16 by omega) B).symm
  have e3 : 16777216 * A ||| (65536 * B + (256 * G + R)) =
      16777216 * A + (65536 * B + (256 * G + R)) :=
    (Nat.mul_add_lt_is_or (show 65536 * B + (256 * G + R) < 2 ^ 24 by omega) A).symm
  have s1 : G <<< 8 = 256 * G := by rw [Nat.shiftLeft_eq]; omega
  have s2 : B <<< 16 = 65536 * B := by rw [Nat.shiftLeft_eq]; omega
  have s3 : A <<< 24 = 16777216 * A := by rw [Nat.shiftLeft_eq]; omega
  unfold uint32_of_bytes abgr_8888
  rw [Nat.lor_assoc, Nat.lor_assoc, s1, s2, s3, e1, e2, e3]
  omega

theorem pixel_channels (R G B A : Nat) (hR : R < 256) (hG : G < 256) (hB : B < 256)
    (hA : A < 256) :
    abgr_8888 R G B A >>> 16 &&& 0xFF = B ∧ abgr_8888 R G B A >>> 8 &&& 0xFF = G ∧
    abgr_8888 R G B A &&& 0xFF = R ∧ abgr_8888 R G B A >>> 24 &&& 0xFF = A := by
  rw [← uint32_of_bytes_eq R G B A hR hG hB hA]
  unfold uint32_of_bytes
  have h255 : (0xFF : Nat) = 2 ^ 8 - 1 := by norm_num
  rw [h255]
  simp only [Nat.and_pow_two_sub_one_eq_mod, Nat.shiftRight_eq_div_pow]
  norm_num
  omega

/-- C29: on the cached path `get_image_pixel` takes red from bits 16 to 23 and blue from bits
0 to 7 of the cached value, so for a pixel whose cached value is `A<<24 | B<<16 | G<<8 | R` it
returns `rgba(B, G, R, A)`: red and blue change places. -/
theorem C29_cached_pixel_swaps_red_blue (env : Allegro) (image image1 : image_t)
    (cache : List Nat) (x y : Int) (R G B A : Nat)
    (hfill : cache_pixels env image = .ok image1) (hcache : image1.pixel_cache = some cache)
    (hx : 0 ≤ x + y * image1.width)
    (hget : cache.get? (x + y * image1.width).toNat = some (abgr_8888 R G B A))
    (hR : R < 256) (hG : G < 256) (hB : B < 256) (hA : A < 256) :
    get_image_pixel env image x y = .ok (env.rgba B G R A, image1) := by
  obtain ⟨h1, h2, h3, h4⟩ := pixel_channels R G B A hR hG hB hA
  unfold get_image_pixel
  rw [hfill]
  simp only [bind, Except.bind, hcache]
  have hlen : (x + y * image1.width).toNat < cache.length := by
    rcases Nat.lt_or_ge (x + y * image1.width).toNat cache.length with h | h
    · exact h
    · rw [List.get?_eq_none.mpr h] at hget
      cases hget
  rw [if_neg (by omega)]
  have hd : cache.getD (x + y * image1.width).toNat 0 = abgr_8888 R G B A := by
    rw [List.getD_eq_getElem?_getD, ← List.get?_eq_getElem?, hget]
    rfl
  rw [hd, h1, h2, h3, h4]

theorem C29_witness :
    get_image_pixel demo_allegro demo_image 0 0 =
      .ok ({ r := 3, g := 2, b := 1, alpha := 4 },
        { demo_image with pixel_cache := some [67305985, 134678021] }) :=
  C29_cached_pixel_swaps_red_blue demo_allegro demo_image
    { demo_image with pixel_cache := some [67305985, 134678021] } [67305985, 134678021] 0 0
    1 2 3 4 rfl rfl (by decide) (by decide) (by decide) (by decide) (by decide) (by decide)

theorem draw_flags_zero (env : Allegro) (is_h_flip is_v_flip : Bool) :
    flip_image.draw_flags env is_h_flip is_v_flip = 0 := by
  unfold flip_image.draw_flags
  cases is_h_flip <;> cases is_v_flip <;> simp

/-- C30: with both arguments false `flip_image` returns true and leaves the image alone; in
every other call the draw flags are built with `&=` from zero and stay zero, so the bitmap is
redrawn with neither flip bit set whatever `is_h_flip` and `is_v_flip` are. -/
theorem C30_flip_flags_stay_clear (env : Allegro) (image : image_t)
    (is_h_flip is_v_flip : Bool) :
    flip_image.draw_flags env is_h_flip is_v_flip = 0 ∧
    flip_image env image false false = (true, image) ∧
    (∀ new_bitmap, (is_h_flip = true ∨ is_v_flip = true) →
      env.al_create_bitmap image.width image.height = some new_bitmap →
      flip_image env image is_h_flip is_v_flip =
        (true, { image with
          pixel_cache := none, bitmap := env.al_draw_bitmap new_bitmap image.bitmap 0 })) := by
  refine ⟨draw_flags_zero env is_h_flip is_v_flip, rfl, fun new_bitmap hflip hnew => ?_⟩
  unfold flip_image
  rw [if_neg (by rcases hflip with h | h <;> simp [h])]
  simp only [uncache_pixels, hnew, draw_flags_zero]

theorem C30_witness :
    flip_image demo_allegro demo_image true false = (true, demo_image) ∧
    demo_allegro.al_draw_bitmap [[0, 0, 0, 0, 0, 0, 0, 0]] demo_image.bitmap
        demo_allegro.ALLEGRO_FLIP_HORIZONTAL ≠ demo_image.bitmap :=
  ⟨(C30_flip_flags_stay_clear demo_allegro demo_image true false).2.2
      [[0, 0, 0, 0, 0, 0, 0, 0]] (Or.inl rfl) rfl,
   by decide⟩

/-! ## The entity model (C21) -/

/-- C21: for an entity with speed `s` whose next pending command is Move East and whose
candidate position `(x + s, y)` is not obstructed, one update tick drains that command,
increases x by exactly `s` and leaves y and the layer unchanged. -/
theorem C21_move_east (is_person_obstructed_at : person → ℚ → ℚ → Bool) (p : person)
    (rest : List person_cmd)
    (hqueue : p.commandQueue = person_cmd.COMMAND_MOVE_EAST :: rest)
    (hclear : is_person_obstructed_at p (p.x + p.speed) p.y = false) :
    (update_person is_person_obstructed_at p).x = p.x + p.speed ∧
    (update_person is_person_obstructed_at p).y = p.y ∧
    (update_person is_person_obstructed_at p).layer = p.layer ∧
    (update_person is_person_obstructed_at p).commandQueue = rest := by
  have hx : p.x + ((Compass.E.step.1 : Int) : ℚ) * p.speed = p.x + p.speed := by
    simp [Compass.step]
  have hy : p.y + ((Compass.E.step.2 : Int) : ℚ) * p.speed = p.y := by
    simp [Compass.step]
  unfold update_person
  rw [hqueue]
  simp only [person_cmd.toCommand, hx, hy, hclear]
  simp

theorem C21_witness :
    (update_person (fun _ _ _ => false) demo_person).x = 3 / 2 + 1 / 2 ∧
    (update_person (fun _ _ _ => false) demo_person).y = 4 ∧
    (update_person (fun _ _ _ => false) demo_person).layer = 0 ∧
    (update_person (fun _ _ _ => false) demo_person).commandQueue = [] :=
  C21_move_east (fun _ _ _ => false) demo_person [] rfl rfl

/-! ## Scripts that catch errors (C5) -/

theorem call_api_guarded_unguarded (env : Env) (call : List Cmd → M Unit) (fuel : Nat)
    (c : Cmd) : call_api_guarded env (fun _ _ => false) call fuel c = call_api env call fuel c := by
  funext s
  unfold call_api_guarded
  cases hr : call_api env call fuel c s with
  | ok u s1 => rfl
  | fail f s1 => cases f <;> rfl

theorem invoke_guarded_unguarded (env : Env) (fuel : Nat) :
    invoke_guarded env (fun _ _ => false) fuel = invoke env fuel := by
  induction fuel with
  | zero => rfl
  | succ n ih =>
    funext body
    have h : call_api_guarded env (fun _ _ => false) (invoke env n) n =
        call_api env (invoke env n) n :=
      funext fun c => call_api_guarded_unguarded env (invoke env n) n c
    unfold invoke_guarded invoke
    rw [ih, h]


theorem update_map_engine_dispatch (env : Env) (call : List Cmd → M Unit) (t : State)
    (fb : List Cmd) (h : t.stash "update_script" = Val.function fb) :
    update_map_engine env call t =
      (let s1 : State := { t with trace := t.trace ++ [Ev.update_persons] }
       let s2 : State :=
         match t.s_input_person with
         | none => s1
         | some p =>
           { s1 with trace := s1.trace ++ Ev.al_get_keyboard_state ::
               input_commands (env.al_get_keyboard_state s1.trace) p }
       match t.s_camera_person, t.s_map with
       | none, _ =>
         (do call fb
             duk_push Val.undefined
             duk_pop_2)
           { s2 with vstack := Val.global_stash :: s2.vstack,
                     trace := s2.trace ++ [Ev.duk_call fb] }
       | some _, none => Res.fail (Fault.crash "s_map is NULL") s2
       | some p, some m =>
         (do call fb
             duk_push Val.undefined
             duk_pop_2)
           { s2 with
             s_cam_x := (env.get_person_xy s2.trace p m.width m.height).1,
             s_cam_y := (env.get_person_xy s2.trace p m.width m.height).2,
             vstack := Val.global_stash :: s2.vstack,
             trace := s2.trace ++ [Ev.get_person_xy p m.width m.height, Ev.duk_call fb] }) := by
  rw [update_map_engine_cases]
  obtain ⟨cp, cx, cy, ex, fr, ip, mp, fn, rn, st, vs, tr⟩ := t
  simp only at h
  cases ip <;> cases cp <;> cases mp <;> dsimp only <;>
    first
    | rfl
    | (rw [update_run_script_callable call _ fb (by exact h)]
       try simp only [List.append_assoc, List.singleton_append, List.cons_append,
         List.nil_append])

theorem render_map_engine_dispatch (call : List Cmd → M Unit) (t : State)
    (fb : List Cmd) (h : t.stash "render_script" = Val.function fb) :
    render_map_engine call t =
      match t.s_map_filename with
      | none => Res.fail (Fault.crash "al_draw_text: s_map_filename is NULL") t
      | some text =>
        (do call fb
            duk_push Val.undefined
            duk_pop_2)
          { t with vstack := Val.global_stash :: t.vstack,
                   trace := t.trace ++ [Ev.al_draw_text text, Ev.render_persons,
                     Ev.duk_call fb] } := by
  obtain ⟨cp, cx, cy, ex, fr, ip, mp, fn, rn, st, vs, tr⟩ := t
  simp only at h
  cases fn with
  | none => exact render_map_engine_none call _ rfl
  | some text =>
    rw [render_map_engine_blocks call _ text rfl, bind_run, logEv_run]
    dsimp only
    rw [render_run_script_callable call _ fb (by exact h)]
    try simp only [List.append_assoc, List.singleton_append, List.cons_append, List.nil_append]


/-- C16. For a source `b` that compiles to the script `fb`, SetUpdateScript(b)
overwrites the update slot with `fb` and changes nothing else, so after
SetUpdateScript(a) then SetUpdateScript(b) the state is the one
SetUpdateScript(b) alone would have left, with `fb` in the slot: nothing of `a`
remains. Every update phase entered with `fb` in the slot is `update_persons`,
the input and camera steps, and then one invocation of `fb`, its only
invocation of a script. The same holds for SetRenderScript and the render
phase, which draws the map name and the persons and then invokes `fb` once. -/
theorem C16_set_script_replaces (env : Env) (b : lstring_t) (fb : List Cmd)
    (hb : env.duk_compile b = some fb) :
    (∀ s : State, js_SetUpdateScript env b s = Res.ok 0
      { s with stash := fun k => if k = "update_script" then Val.function fb else s.stash k }) ∧
    (∀ (a : lstring_t) (s s1 : State) (n : Int), js_SetUpdateScript env a s = Res.ok n s1 →
      js_SetUpdateScript env b s1 = js_SetUpdateScript env b s ∧
      (js_SetUpdateScript env b s1).state.stash "update_script" = Val.function fb) ∧
    (∀ (call : List Cmd → M Unit) (t : State), t.stash "update_script" = Val.function fb →
      update_map_engine env call t =
        (let s1 : State := { t with trace := t.trace ++ [Ev.update_persons] }
         let s2 : State :=
           match t.s_input_person with
           | none => s1
           | some p =>
             { s1 with trace := s1.trace ++ Ev.al_get_keyboard_state ::
                 input_commands (env.al_get_keyboard_state s1.trace) p }
         match t.s_camera_person, t.s_map with
         | none, _ =>
           (do call fb
               duk_push Val.undefined
               duk_pop_2)
             { s2 with vstack := Val.global_stash :: s2.vstack,
                       trace := s2.trace ++ [Ev.duk_call fb] }
         | some _, none => Res.fail (Fault.crash "s_map is NULL") s2
         | some p, some m =>
           (do call fb
               duk_push Val.undefined
               duk_pop_2)
             { s2 with
               s_cam_x := (env.get_person_xy s2.trace p m.width m.height).1,
               s_cam_y := (env.get_person_xy s2.trace p m.width m.height).2,
               vstack := Val.global_stash :: s2.vstack,
               trace := s2.trace ++
                 [Ev.get_person_xy p m.width m.height, Ev.duk_call fb] })) ∧
    (∀ s : State, js_SetRenderScript env b s = Res.ok 0
      { s with stash := fun k => if k = "render_script" then Val.function fb else s.stash k }) ∧
    (∀ (a : lstring_t) (s s1 : State) (n : Int), js_SetRenderScript env a s = Res.ok n s1 →
      js_SetRenderScript env b s1 = js_SetRenderScript env b s ∧
      (js_SetRenderScript env b s1).state.stash "render_script" = Val.function fb) ∧
    (∀ (call : List Cmd → M Unit) (t : State), t.stash "render_script" = Val.function fb →
      render_map_engine call t =
        match t.s_map_filename with
        | none => Res.fail (Fault.crash "al_draw_text: s_map_filename is NULL") t
        | some text =>
          (do call fb
              duk_push Val.undefined
              duk_pop_2)
            { t with vstack := Val.global_stash :: t.vstack,
                     trace := t.trace ++ [Ev.al_draw_text text, Ev.render_persons,
                       Ev.duk_call fb] }) := by
  refine ⟨?_, ?_, fun call t h => update_map_engine_dispatch env call t fb h, ?_, ?_,
    fun call t h => render_map_engine_dispatch call t fb h⟩
  · intro s
    rw [js_SetUpdateScript_run, hb]
  · intro a s s1 n h
    rw [js_SetUpdateScript_run] at h
    rw [js_SetUpdateScript_run, js_SetUpdateScript_run, hb]
    cases ha : env.duk_compile a with
    | none => rw [ha] at h; cases h
    | some fa =>
      rw [ha] at h
      cases h
      dsimp only
      refine ⟨?_, by simp [Res.state]⟩
      congr 2
      funext k
      by_cases hk : k = "update_script" <;> simp [hk]
  · intro s
    rw [js_SetRenderScript_run, hb]
  · intro a s s1 n h
    rw [js_SetRenderScript_run] at h
    rw [js_SetRenderScript_run, js_SetRenderScript_run, hb]
    cases ha : env.duk_compile a with
    | none => rw [ha] at h; cases h
    | some fa =>
      rw [ha] at h
      cases h
      dsimp only
      refine ⟨?_, by simp [Res.state]⟩
      congr 2
      funext k
      by_cases hk : k = "render_script" <;> simp [hk]


set_option maxRecDepth 100000 in
theorem C16_witness :
    (update_map_engine town_env (invoke town_env 2)
        (js_SetUpdateScript town_env [1]
          (js_SetUpdateScript town_env [7] plain_session).state).state).state.trace =
      [Ev.update_persons, Ev.duk_call [Cmd.ExitMapEngine], Ev.api Cmd.ExitMapEngine,
       Ev.api_return Cmd.ExitMapEngine Val.undefined] ∧
    (render_map_engine (invoke town_env 2)
        (js_SetRenderScript town_env [1]
          (js_SetRenderScript town_env [7] plain_session).state).state).state.trace =
      [Ev.al_draw_text "town.rmp", Ev.render_persons, Ev.duk_call [Cmd.ExitMapEngine],
       Ev.api Cmd.ExitMapEngine, Ev.api_return Cmd.ExitMapEngine Val.undefined] :=
  have h := C16_set_script_replaces town_env [1] [Cmd.ExitMapEngine] rfl
  ⟨by rw [h.2.2.1 (invoke town_env 2) _ (by decide!)]; decide!,
   by rw [h.2.2.2.2.2 (invoke town_env 2) _ (by decide!)]; decide!⟩

end Minisphere
